import Mathlib

/-!
# Transit gateway handlers of the IBM Terraform provider

A shallow embedding of

* `ibm/resource_ibm_tg_gateway_connection_actions.go`
  (`resourceIBMTransitGatewayConnectionActionsCreate`, `...Read`, `...Delete`), and
* `ibm/service/transitgateway/data_source_ibm_tg_gateway.go`
  (`dataSourceIBMTransitGatewayRead`, `dataSourceIBMTransitGatewayConnectionsRead`).

Conventions of the embedding:

* a Go pointer field is an `Option` (`none` is the nil pointer);
* a Go `map[string]interface{}` is an association list with at most one entry per key,
  written through `mapSet` and read through `mapGet`;
* `*schema.ResourceData` is passed explicitly as a `ResourceData` value;
* the SDK client is a record of responses, and every call made on it is appended to a
  call log;
* dereferencing a nil pointer or indexing a slice out of range is a `Panic`.
-/

namespace Tgw

/-! ## Go maps -/

/-- Assignment `m[k] = v` on a Go map: overwrite the entry of `k`, or add one. -/
def mapSet {α : Type} (m : List (String × α)) (k : String) (v : α) : List (String × α) :=
  match m with
  | [] => [(k, v)]
  | (k', v') :: rest => if k' = k then (k, v) :: rest else (k', v') :: mapSet rest k v

/-- Lookup `m[k]` on a Go map, `none` when the map has no entry under `k`. -/
def mapGet {α : Type} (m : List (String × α)) (k : String) : Option α :=
  match m with
  | [] => none
  | (k', v') :: rest => if k' = k then some v' else mapGet rest k

/-- The guarded assignment `if p != nil { m[k] = *p }`. -/
def setIf {α : Type} (m : List (String × α)) (k : String) (p : Option α) : List (String × α) :=
  match p with
  | some v => mapSet m k v
  | none => m

/-! ## Values stored in maps and in the resource data -/

/-- A primitive value as stored under an attribute; `null` is a stored nil pointer. -/
inductive Scalar
  | null
  | str (s : String)
  | int (n : Int)
  | bool (b : Bool)
  deriving DecidableEq, Repr

/-- The value of a `*string` handed over as such (not dereferenced). -/
def Scalar.ofStrPtr : Option String → Scalar
  | none => .null
  | some s => .str s

/-- The value of a `*bool` handed over as such (not dereferenced). -/
def Scalar.ofBoolPtr : Option Bool → Scalar
  | none => .null
  | some b => .bool b

/-- The map built for one prefix filter (`tgPrefixFilter`). -/
abbrev PrefixFilterMap := List (String × Scalar)

/-- A value stored in the map of one connection. -/
inductive ConnValue
  | scalar (v : Scalar)
  | filters (fs : List PrefixFilterMap)
  deriving DecidableEq, Repr

/-- The map built for one connection (`tgConn`). -/
abbrev ConnMap := List (String × ConnValue)

/-- A value stored under an attribute of the resource data. -/
inductive Value
  | scalar (v : Scalar)
  | connections (cs : List ConnMap)
  deriving DecidableEq, Repr

/-! ## SDK types

The types of `transitgatewayapisv1` are not part of the sources. Each structure below
carries exactly the fields the handlers read, every one a nullable pointer as in the
generated SDK. -/

/-- Rendering of `strfmt.DateTime`. -/
structure DateTime where
  text : String
  deriving DecidableEq, Repr

/-- The method `DateTime.String()`. -/
def DateTime.String (t : DateTime) : String := t.text

/-- SDK type `ResourceGroupReference`. -/
structure ResourceGroupReference where
  ID : Option String
  deriving DecidableEq, Repr

/-- SDK type `TransitGateway`. -/
structure TransitGateway where
  ID : Option String
  Crn : Option String
  Name : Option String
  Location : Option String
  CreatedAt : Option DateTime
  Global : Option Bool
  ResourceGroup : Option ResourceGroupReference
  Status : Option String
  UpdatedAt : Option DateTime
  deriving DecidableEq, Repr

/-- SDK type `ZoneReference`. -/
structure ZoneReference where
  Name : Option String
  deriving DecidableEq, Repr

/-- SDK type of one element of `Connection.PrefixFilters`. -/
structure PrefixFilter where
  ID : Option String
  Action : Option String
  Before : Option String
  CreatedAt : Option DateTime
  Ge : Option Int
  Le : Option Int
  Prefix : Option String
  UpdatedAt : Option DateTime
  deriving DecidableEq, Repr

/-- SDK type `TransitGatewayConnectionCust`. -/
structure Connection where
  ID : Option String
  Name : Option String
  NetworkType : Option String
  NetworkID : Option String
  NetworkAccountID : Option String
  BaseConnectionID : Option String
  BaseNetworkType : Option String
  LocalBgpAsn : Option Int
  LocalGatewayIp : Option String
  LocalTunnelIp : Option String
  RemoteBgpAsn : Option Int
  RemoteGatewayIp : Option String
  RemoteTunnelIp : Option String
  Zone : Option ZoneReference
  Mtu : Option Int
  CreatedAt : Option DateTime
  UpdatedAt : Option DateTime
  Status : Option String
  PrefixFilters : List PrefixFilter
  PrefixFiltersDefault : Option String
  RequestStatus : Option String
  deriving DecidableEq, Repr

/-! ## Attribute keys -/

/-- Constant `tgConnName` of `data_source_ibm_tg_gateway.go`. -/
def tgConnName : String := "name"
/-- Constant `tgConnections` of `data_source_ibm_tg_gateway.go`. -/
def tgConnections : String := "connections"
/-- Constant `ID` of `data_source_ibm_tg_gateway.go`. -/
def ID : String := "id"
/-- Constant `tgBaseNetworkType` of `data_source_ibm_tg_gateway.go`. -/
def tgBaseNetworkType : String := "base_network_type"
/-- Constant `tgPrefixFiltersDefault` of `data_source_ibm_tg_gateway.go`. -/
def tgPrefixFiltersDefault : String := "prefix_filters_default"
/-- Constant `tgXacGatewayId` of `resource_ibm_tg_gateway_connection_actions.go`. -/
def tgXacGatewayId : String := "gateway"
/-- Constant `tgXacConnectionId` of `resource_ibm_tg_gateway_connection_actions.go`. -/
def tgXacConnectionId : String := "connection_id"
/-- Constant `tgConnectionAction` of `resource_ibm_tg_gateway_connection_actions.go`. -/
def tgConnectionAction : String := "action"

/-- The attribute-key constants the handlers use that are declared in other files of the
two packages. They are parameters of the embedding. -/
structure Consts where
  tgName : String
  tgCrn : String
  tgLocation : String
  tgCreatedAt : String
  tgGlobal : String
  tgStatus : String
  tgUpdatedAt : String
  tgResourceGroup : String
  tgNetworkType : String
  tgNetworkId : String
  tgNetworkAccountID : String
  tgBaseConnectionId : String
  tgLocalBgpAsn : String
  tgLocalGatewayIp : String
  tgLocalTunnelIp : String
  tgRemoteBgpAsn : String
  tgRemoteGatewayIp : String
  tgRemoteTunnelIp : String
  tgZone : String
  tgMtu : String
  tgConectionCreatedAt : String
  tgConnectionStatus : String
  tgPrefixFilters : String
  tgID : String
  tgAction : String
  tgPrefix : String
  tgBefore : String
  tgGe : String
  tgLe : String
  tgGatewayId : String
  tgConnectionId : String
  tgRequestStatus : String
  RelatedCRN : String
  deriving DecidableEq, Repr

/-- The keys of the top-level schema map of `DataSourceIBMTransitGateway`, in the order in
which `dataSourceIBMTransitGatewayRead` writes them. A Go map literal with constant keys
does not compile with a repeated key, so these are distinct in the program. -/
def gatewayKeys (K : Consts) : List String :=
  [K.tgCrn, K.tgName, K.tgLocation, K.tgCreatedAt, K.tgUpdatedAt, K.tgGlobal, K.tgStatus,
   K.tgResourceGroup, tgConnections]

/-- The keys of the schema map of one element of `connections`, in the order in which
`dataSourceIBMTransitGatewayConnectionsRead` assigns them. They come from one Go map
literal, hence are distinct in the program. -/
def connKeys (K : Consts) : List String :=
  [ID, tgConnName, K.tgNetworkType, K.tgNetworkId, K.tgNetworkAccountID,
   K.tgBaseConnectionId, tgBaseNetworkType, K.tgLocalBgpAsn, K.tgLocalGatewayIp,
   K.tgLocalTunnelIp, K.tgRemoteBgpAsn, K.tgRemoteGatewayIp, K.tgRemoteTunnelIp, K.tgZone,
   K.tgMtu, K.tgConectionCreatedAt, K.tgUpdatedAt, K.tgConnectionStatus, K.tgPrefixFilters,
   tgPrefixFiltersDefault]

/-- One assignment of attribute keys, used to evaluate the handlers on concrete inputs. -/
def sampleConsts : Consts where
  tgName := "name"
  tgCrn := "crn"
  tgLocation := "location"
  tgCreatedAt := "created_at"
  tgGlobal := "global"
  tgStatus := "status"
  tgUpdatedAt := "updated_at"
  tgResourceGroup := "resource_group"
  tgNetworkType := "network_type"
  tgNetworkId := "network_id"
  tgNetworkAccountID := "network_account_id"
  tgBaseConnectionId := "base_connection_id"
  tgLocalBgpAsn := "local_bgp_asn"
  tgLocalGatewayIp := "local_gateway_ip"
  tgLocalTunnelIp := "local_tunnel_ip"
  tgRemoteBgpAsn := "remote_bgp_asn"
  tgRemoteGatewayIp := "remote_gateway_ip"
  tgRemoteTunnelIp := "remote_tunnel_ip"
  tgZone := "zone"
  tgMtu := "mtu"
  tgConectionCreatedAt := "created_at"
  tgConnectionStatus := "status"
  tgPrefixFilters := "prefix_filters"
  tgID := "id"
  tgAction := "action"
  tgPrefix := "prefix"
  tgBefore := "before"
  tgGe := "ge"
  tgLe := "le"
  tgGatewayId := "gateway"
  tgConnectionId := "connection_id"
  tgRequestStatus := "request_status"
  RelatedCRN := "related_crn"

/-! ## Panics -/

/-- A Go runtime panic. -/
inductive Panic
  | nilDereference
  | indexOutOfRange
  deriving DecidableEq, Repr

/-- The body of a `for _, x := range xs` loop that appends one element per iteration,
stopping at the first iteration that panics. -/
def rangeAppend {α β : Type} (f : α → Except Panic β) : List α → Except Panic (List β)
  | [] => .ok []
  | x :: xs =>
    match f x with
    | .error p => .error p
    | .ok y =>
      match rangeAppend f xs with
      | .error p => .error p
      | .ok ys => .ok (y :: ys)

/-! ## `dataSourceIBMTransitGatewayConnectionsRead`: flattening -/

/-- The body of the inner loop over `instance.PrefixFilters` (source lines 337-356). -/
def flattenPrefixFilter (K : Consts) (prefixFilter : PrefixFilter) :
    Except Panic PrefixFilterMap :=
  let tgPrefixFilter : PrefixFilterMap := []
  let tgPrefixFilter := mapSet tgPrefixFilter K.tgID (Scalar.ofStrPtr prefixFilter.ID)
  let tgPrefixFilter := mapSet tgPrefixFilter K.tgAction (Scalar.ofStrPtr prefixFilter.Action)
  -- `prefixFilter.CreatedAt.String()` dereferences `CreatedAt` without a nil check
  match prefixFilter.CreatedAt with
  | none => .error .nilDereference
  | some createdAt =>
    let tgPrefixFilter := mapSet tgPrefixFilter K.tgCreatedAt (.str createdAt.String)
    let tgPrefixFilter := mapSet tgPrefixFilter K.tgPrefix (Scalar.ofStrPtr prefixFilter.Prefix)
    let tgPrefixFilter :=
      setIf tgPrefixFilter K.tgUpdatedAt (prefixFilter.UpdatedAt.map fun t => .str t.String)
    let tgPrefixFilter := setIf tgPrefixFilter K.tgBefore (prefixFilter.Before.map .str)
    let tgPrefixFilter := setIf tgPrefixFilter K.tgGe (prefixFilter.Ge.map .int)
    let tgPrefixFilter := setIf tgPrefixFilter K.tgLe (prefixFilter.Le.map .int)
    .ok tgPrefixFilter

/-- The scalar assignments of the outer loop body up to `RemoteTunnelIp`
(source lines 264-313). -/
def flattenHead (K : Consts) (inst : Connection) : ConnMap :=
  let tgConn : ConnMap := []
  let tgConn := setIf tgConn ID (inst.ID.map fun s => .scalar (.str s))
  let tgConn := setIf tgConn tgConnName (inst.Name.map fun s => .scalar (.str s))
  let tgConn := setIf tgConn K.tgNetworkType (inst.NetworkType.map fun s => .scalar (.str s))
  let tgConn := setIf tgConn K.tgNetworkId (inst.NetworkID.map fun s => .scalar (.str s))
  let tgConn :=
    setIf tgConn K.tgNetworkAccountID (inst.NetworkAccountID.map fun s => .scalar (.str s))
  let tgConn :=
    setIf tgConn K.tgBaseConnectionId (inst.BaseConnectionID.map fun s => .scalar (.str s))
  let tgConn :=
    setIf tgConn tgBaseNetworkType (inst.BaseNetworkType.map fun s => .scalar (.str s))
  let tgConn := setIf tgConn K.tgLocalBgpAsn (inst.LocalBgpAsn.map fun n => .scalar (.int n))
  let tgConn :=
    setIf tgConn K.tgLocalGatewayIp (inst.LocalGatewayIp.map fun s => .scalar (.str s))
  let tgConn := setIf tgConn K.tgLocalTunnelIp (inst.LocalTunnelIp.map fun s => .scalar (.str s))
  let tgConn := setIf tgConn K.tgRemoteBgpAsn (inst.RemoteBgpAsn.map fun n => .scalar (.int n))
  let tgConn :=
    setIf tgConn K.tgRemoteGatewayIp (inst.RemoteGatewayIp.map fun s => .scalar (.str s))
  let tgConn :=
    setIf tgConn K.tgRemoteTunnelIp (inst.RemoteTunnelIp.map fun s => .scalar (.str s))
  tgConn

/-- The assignment of the zone (source lines 315-317): `instance.Zone` is nil-checked,
`instance.Zone.Name` is dereferenced as it is. -/
def flattenZone (K : Consts) (inst : Connection) (tgConn : ConnMap) : Except Panic ConnMap :=
  match inst.Zone with
  | none => .ok tgConn
  | some zone =>
    match zone.Name with
    | none => .error .nilDereference
    | some name => .ok (mapSet tgConn K.tgZone (.scalar (.str name)))

/-- The body of the loop over `listTGConnections.Connections` (source lines 264-364). -/
def flattenConnection (K : Consts) (inst : Connection) : Except Panic ConnMap :=
  let tgConn := flattenHead K inst
  match flattenZone K inst tgConn with
  | .error p => .error p
  | .ok tgConn =>
    let tgConn := setIf tgConn K.tgMtu (inst.Mtu.map fun n => .scalar (.int n))
    let tgConn :=
      setIf tgConn K.tgConectionCreatedAt (inst.CreatedAt.map fun t => .scalar (.str t.String))
    let tgConn := setIf tgConn K.tgUpdatedAt (inst.UpdatedAt.map fun t => .scalar (.str t.String))
    let tgConn := setIf tgConn K.tgConnectionStatus (inst.Status.map fun s => .scalar (.str s))
    match rangeAppend (flattenPrefixFilter K) inst.PrefixFilters with
    | .error p => .error p
    | .ok prefixFiltersCollection =>
      let tgConn := mapSet tgConn K.tgPrefixFilters (.filters prefixFiltersCollection)
      let tgConn :=
        setIf tgConn tgPrefixFiltersDefault
          (inst.PrefixFiltersDefault.map fun s => .scalar (.str s))
      .ok tgConn

/-- The loop over `listTGConnections.Connections` (source lines 261-366). -/
def flattenConnections (K : Consts) (cs : List Connection) : Except Panic (List ConnMap) :=
  rangeAppend (flattenConnection K) cs

/-! ## Resource data -/

/-- The part of `*schema.ResourceData` the handlers touch: the resource id and the
attribute values. -/
structure ResourceData where
  id : String
  attrs : List (String × Value)
  deriving DecidableEq, Repr

/-- The method `d.Id()`. -/
def ResourceData.Id (d : ResourceData) : String := d.id

/-- The method `d.SetId(v)`. -/
def ResourceData.SetId (d : ResourceData) (v : String) : ResourceData :=
  { d with id := v }

/-- The method `d.Set(key, value)`. -/
def ResourceData.Set (d : ResourceData) (key : String) (value : Value) : ResourceData :=
  { d with attrs := mapSet d.attrs key value }

/-- The guarded write `if p != nil { d.Set(key, ...) }`. -/
def ResourceData.SetIf (d : ResourceData) (key : String) (p : Option Value) : ResourceData :=
  { d with attrs := setIf d.attrs key p }

/-- The expression `d.Get(key).(string)` for an attribute the schema declares as
`TypeString`: the stored string, or the zero value when nothing is stored. -/
def ResourceData.GetString (d : ResourceData) (key : String) : String :=
  match mapGet d.attrs key with
  | some (.scalar (.str s)) => s
  | _ => ""

/-! ## The SDK client -/

/-- The part of `*core.DetailedResponse` the handlers use: the status code, and the text
that `%s` prints. -/
structure DetailedResponse where
  StatusCode : Int
  text : String
  deriving DecidableEq, Repr

/-- A failed SDK call: the (possibly nil) response and the non-nil error. -/
structure SdkError where
  response : Option DetailedResponse
  err : String
  deriving DecidableEq, Repr

/-- What `%s` prints for a `*core.DetailedResponse`. -/
def fmtResponse : Option DetailedResponse → String
  | none => "<nil>"
  | some r => r.text

/-- SDK type `TransitGatewayCollection`. -/
structure TransitGatewayCollection where
  TransitGateways : List TransitGateway
  deriving DecidableEq, Repr

/-- SDK type `TransitGatewayConnectionCollection`. -/
structure TransitGatewayConnectionCollection where
  Connections : List Connection
  deriving DecidableEq, Repr

/-- A call made on the SDK client, with the fields set on its options object. -/
inductive SdkCall
  | ListTransitGateways
  | ListTransitGatewayConnections (TransitGatewayID : String)
  | GetTransitGatewayConnection (TransitGatewayID : String) (ID : String)
  | GetTransitGateway (ID : String)
  | CreateTransitGatewayConnectionActions (TransitGatewayID : String) (ID : String)
      (Action : String)
  deriving DecidableEq, Repr

/-- The SDK client: what the remote API answers to each call. -/
structure Client where
  ListTransitGateways : Except SdkError TransitGatewayCollection
  ListTransitGatewayConnections : String → Except SdkError TransitGatewayConnectionCollection
  GetTransitGatewayConnection : String → String → Except SdkError Connection
  GetTransitGateway : String → Except SdkError TransitGateway
  CreateTransitGatewayConnectionActions :
    String → String → String → Except SdkError DetailedResponse

/-! ## Outcomes -/

/-- How a handler stopped: it returned `nil`, it returned an error, or it panicked. -/
inductive Result
  | nil
  | error (msg : String)
  | panic (p : Panic)
  deriving DecidableEq, Repr

/-- A run of a handler: the resource data as the handler left it, the SDK calls it made
in order, and how it stopped. -/
structure Outcome where
  d : ResourceData
  calls : List SdkCall
  result : Result
  deriving DecidableEq, Repr

/-! ## `resource_ibm_tg_gateway_connection_actions.go`

`session` is the value of `transitgatewayClient(meta)`, `idParts` is the helper of that
name; both are declared elsewhere in package `ibm`. -/

/-- Handler `resourceIBMTransitGatewayConnectionActionsCreate` (source lines 74-96). -/
def resourceIBMTransitGatewayConnectionActionsCreate (d : ResourceData)
    (session : Except String Client) : Outcome :=
  match session with
  | .error err => ⟨d, [], .error err⟩
  | .ok client =>
    let gatewayId := d.GetString tgXacGatewayId
    let connectionId := d.GetString tgXacConnectionId
    let action := d.GetString tgConnectionAction
    let calls := [SdkCall.CreateTransitGatewayConnectionActions gatewayId connectionId action]
    match client.CreateTransitGatewayConnectionActions gatewayId connectionId action with
    | .error e =>
      ⟨d, calls, .error ("XAC connection action err " ++ e.err ++ "\n" ++ fmtResponse e.response)⟩
    | .ok _ => ⟨d.SetId "", calls, .nil⟩

/-- Handler `resourceIBMTransitGatewayConnectionActionsRead` (source lines 98-139). -/
def resourceIBMTransitGatewayConnectionActionsRead (K : Consts)
    (idParts : String → Except String (List String)) (d : ResourceData)
    (session : Except String Client) : Outcome :=
  match session with
  | .error err => ⟨d, [], .error err⟩
  | .ok client =>
    match idParts d.Id with
    | .error err => ⟨d, [], .error err⟩
    | .ok parts =>
      match parts[0]?, parts[1]? with
      | some gatewayId, some connID =>
        let calls := [SdkCall.GetTransitGatewayConnection gatewayId connID]
        match client.GetTransitGatewayConnection gatewayId connID with
        | .error e =>
          match e.response with
          | some response =>
            if response.StatusCode = 404 then ⟨d.SetId "", calls, .nil⟩
            else
              ⟨d, calls, .error ("Error Getting Transit Gateway Connection (" ++ connID ++ "): "
                ++ e.err ++ "\n" ++ fmtResponse e.response)⟩
          | none =>
            ⟨d, calls, .error ("Error Getting Transit Gateway Connection (" ++ connID ++ "): "
              ++ e.err ++ "\n" ++ fmtResponse e.response)⟩
        | .ok inst =>
          let d := d.SetIf K.tgRequestStatus (inst.RequestStatus.map fun s => .scalar (.str s))
          match inst.ID with
          | none => ⟨d, calls, .panic .nilDereference⟩
          | some instID =>
            let d := d.Set K.tgConnectionId (.scalar (.str instID))
            let d := d.Set K.tgGatewayId (.scalar (.str gatewayId))
            let calls := calls ++ [SdkCall.GetTransitGateway gatewayId]
            match client.GetTransitGateway gatewayId with
            | .error e =>
              ⟨d, calls, .error ("Error Getting Transit Gateway : " ++ e.err ++ "\n"
                ++ fmtResponse e.response)⟩
            | .ok tgw =>
              match tgw.Crn with
              | none => ⟨d, calls, .panic .nilDereference⟩
              | some crn => ⟨d.Set K.RelatedCRN (.scalar (.str crn)), calls, .nil⟩
      | _, _ => ⟨d, [], .panic .indexOutOfRange⟩

/-- Handler `resourceIBMTransitGatewayConnectionActionsDelete` (source lines 141-144). -/
def resourceIBMTransitGatewayConnectionActionsDelete (d : ResourceData)
    (_session : Except String Client) : Outcome :=
  ⟨d.SetId "", [], .nil⟩

/-! ## `data_source_ibm_tg_gateway.go` -/

/-- Handler `dataSourceIBMTransitGatewayConnectionsRead` (source lines 246-371). -/
def dataSourceIBMTransitGatewayConnectionsRead (K : Consts) (d : ResourceData)
    (session : Except String Client) : Outcome :=
  match session with
  | .error err => ⟨d, [], .error err⟩
  | .ok client =>
    let tgGatewayId := d.Id
    let calls := [SdkCall.ListTransitGatewayConnections tgGatewayId]
    match client.ListTransitGatewayConnections tgGatewayId with
    | .error e =>
      ⟨d, calls, .error ("[ERROR] Error while listing transit gateway connections " ++ e.err
        ++ "\n" ++ fmtResponse e.response)⟩
    | .ok listTGConnections =>
      match flattenConnections K listTGConnections.Connections with
      | .error p => ⟨d, calls, .panic p⟩
      | .ok connections => ⟨d.Set tgConnections (.connections connections), calls, .nil⟩

/-- The body of `if *tgw.Name == gwName { ... }` up to `foundGateway = true`
(source lines 219-235): the resource data after the writes, and the panic that cut the
writes short, if any. -/
def copyGateway (K : Consts) (d : ResourceData) (tgw : TransitGateway) :
    ResourceData × Option Panic :=
  match tgw.ID with
  | none => (d, some .nilDereference)
  | some id =>
    let d := d.SetId id
    let d := d.Set K.tgCrn (.scalar (Scalar.ofStrPtr tgw.Crn))
    let d := d.Set K.tgName (.scalar (Scalar.ofStrPtr tgw.Name))
    let d := d.Set K.tgLocation (.scalar (Scalar.ofStrPtr tgw.Location))
    match tgw.CreatedAt with
    | none => (d, some .nilDereference)
    | some createdAt =>
      let d := d.Set K.tgCreatedAt (.scalar (.str createdAt.String))
      let d := d.SetIf K.tgUpdatedAt (tgw.UpdatedAt.map fun t => .scalar (.str t.String))
      let d := d.Set K.tgGlobal (.scalar (Scalar.ofBoolPtr tgw.Global))
      let d := d.Set K.tgStatus (.scalar (Scalar.ofStrPtr tgw.Status))
      match tgw.ResourceGroup with
      | none => (d, none)
      | some rg =>
        match rg.ID with
        | none => (d, some .nilDereference)
        | some rgID => (d.Set K.tgResourceGroup (.scalar (.str rgID)), none)

/-- The state of the loop over `listTransitGateways.TransitGateways`. -/
structure Scan where
  d : ResourceData
  foundGateway : Bool
  panicked : Option Panic
  deriving DecidableEq, Repr

/-- The loop `for _, tgw := range listTransitGateways.TransitGateways`
(source lines 216-237). There is no `break`: every gateway is visited. -/
def scanGateways (K : Consts) (gwName : String) :
    List TransitGateway → ResourceData → Bool → Scan
  | [], d, foundGateway => ⟨d, foundGateway, none⟩
  | tgw :: rest, d, foundGateway =>
    match tgw.Name with
    | none => ⟨d, foundGateway, some .nilDereference⟩
    | some name =>
      if name = gwName then
        match copyGateway K d tgw with
        | (d, some p) => ⟨d, foundGateway, some p⟩
        | (d, none) => scanGateways K gwName rest d true
      else scanGateways K gwName rest d foundGateway

/-- Handler `dataSourceIBMTransitGatewayRead` (source lines 201-245). -/
def dataSourceIBMTransitGatewayRead (K : Consts) (d : ResourceData)
    (session : Except String Client) : Outcome :=
  match session with
  | .error err => ⟨d, [], .error err⟩
  | .ok client =>
    let calls := [SdkCall.ListTransitGateways]
    match client.ListTransitGateways with
    | .error e =>
      ⟨d, calls, .error ("[ERROR] Error while listing transit gateways " ++ e.err ++ "\n"
        ++ fmtResponse e.response)⟩
    | .ok listTransitGateways =>
      let gwName := d.GetString K.tgName
      let scan := scanGateways K gwName listTransitGateways.TransitGateways d false
      match scan.panicked with
      | some p => ⟨scan.d, calls, .panic p⟩
      | none =>
        if !scan.foundGateway then
          ⟨scan.d, calls, .error ("[ERROR] Couldn't find any gateway with the specified name: ("
            ++ gwName ++ ")")⟩
        else
          let out := dataSourceIBMTransitGatewayConnectionsRead K scan.d session
          { out with calls := calls ++ out.calls }

/-! ## Vocabulary of the properties -/

/-- A list of guarded assignments carried out in order on a Go map. -/
def assignAll {α : Type} (m : List (String × α)) (as : List (String × Option α)) :
    List (String × α) :=
  as.foldl (fun acc a => setIf acc a.1 a.2) m

/-- The nullable scalar fields of a connection that the connections reader copies. -/
inductive ConnField
  | id | name | networkType | networkId | networkAccountId | baseConnectionId
  | baseNetworkType | localBgpAsn | localGatewayIp | localTunnelIp | remoteBgpAsn
  | remoteGatewayIp | remoteTunnelIp | zone | mtu | createdAt | updatedAt | status
  | prefixFiltersDefault
  deriving DecidableEq, Repr

/-- The attribute key under which the connections reader stores a field. -/
def ConnField.key (K : Consts) : ConnField → String
  | .id => ID
  | .name => tgConnName
  | .networkType => K.tgNetworkType
  | .networkId => K.tgNetworkId
  | .networkAccountId => K.tgNetworkAccountID
  | .baseConnectionId => K.tgBaseConnectionId
  | .baseNetworkType => tgBaseNetworkType
  | .localBgpAsn => K.tgLocalBgpAsn
  | .localGatewayIp => K.tgLocalGatewayIp
  | .localTunnelIp => K.tgLocalTunnelIp
  | .remoteBgpAsn => K.tgRemoteBgpAsn
  | .remoteGatewayIp => K.tgRemoteGatewayIp
  | .remoteTunnelIp => K.tgRemoteTunnelIp
  | .zone => K.tgZone
  | .mtu => K.tgMtu
  | .createdAt => K.tgConectionCreatedAt
  | .updatedAt => K.tgUpdatedAt
  | .status => K.tgConnectionStatus
  | .prefixFiltersDefault => tgPrefixFiltersDefault

/-- Whether a field of the connection is present (its pointer is not nil). -/
def ConnField.present (inst : Connection) : ConnField → Bool
  | .id => inst.ID.isSome
  | .name => inst.Name.isSome
  | .networkType => inst.NetworkType.isSome
  | .networkId => inst.NetworkID.isSome
  | .networkAccountId => inst.NetworkAccountID.isSome
  | .baseConnectionId => inst.BaseConnectionID.isSome
  | .baseNetworkType => inst.BaseNetworkType.isSome
  | .localBgpAsn => inst.LocalBgpAsn.isSome
  | .localGatewayIp => inst.LocalGatewayIp.isSome
  | .localTunnelIp => inst.LocalTunnelIp.isSome
  | .remoteBgpAsn => inst.RemoteBgpAsn.isSome
  | .remoteGatewayIp => inst.RemoteGatewayIp.isSome
  | .remoteTunnelIp => inst.RemoteTunnelIp.isSome
  | .zone => inst.Zone.isSome
  | .mtu => inst.Mtu.isSome
  | .createdAt => inst.CreatedAt.isSome
  | .updatedAt => inst.UpdatedAt.isSome
  | .status => inst.Status.isSome
  | .prefixFiltersDefault => inst.PrefixFiltersDefault.isSome

/-- The value the connections reader stores for a field, `none` when it stores nothing. -/
def ConnField.copied (inst : Connection) : ConnField → Option ConnValue
  | .id => inst.ID.map fun s => .scalar (.str s)
  | .name => inst.Name.map fun s => .scalar (.str s)
  | .networkType => inst.NetworkType.map fun s => .scalar (.str s)
  | .networkId => inst.NetworkID.map fun s => .scalar (.str s)
  | .networkAccountId => inst.NetworkAccountID.map fun s => .scalar (.str s)
  | .baseConnectionId => inst.BaseConnectionID.map fun s => .scalar (.str s)
  | .baseNetworkType => inst.BaseNetworkType.map fun s => .scalar (.str s)
  | .localBgpAsn => inst.LocalBgpAsn.map fun n => .scalar (.int n)
  | .localGatewayIp => inst.LocalGatewayIp.map fun s => .scalar (.str s)
  | .localTunnelIp => inst.LocalTunnelIp.map fun s => .scalar (.str s)
  | .remoteBgpAsn => inst.RemoteBgpAsn.map fun n => .scalar (.int n)
  | .remoteGatewayIp => inst.RemoteGatewayIp.map fun s => .scalar (.str s)
  | .remoteTunnelIp => inst.RemoteTunnelIp.map fun s => .scalar (.str s)
  | .zone => (inst.Zone.bind fun zone => zone.Name).map fun s => .scalar (.str s)
  | .mtu => inst.Mtu.map fun n => .scalar (.int n)
  | .createdAt => inst.CreatedAt.map fun t => .scalar (.str t.String)
  | .updatedAt => inst.UpdatedAt.map fun t => .scalar (.str t.String)
  | .status => inst.Status.map fun s => .scalar (.str s)
  | .prefixFiltersDefault => inst.PrefixFiltersDefault.map fun s => .scalar (.str s)

/-- The two pointers the connections reader dereferences without a nil check are not
nil: the name of the zone when there is a zone, and `CreatedAt` of every prefix filter. -/
def Connection.unguardedPresent (inst : Connection) : Bool :=
  (match inst.Zone with
   | none => true
   | some zone => zone.Name.isSome)
  && inst.PrefixFilters.all fun prefixFilter => prefixFilter.CreatedAt.isSome

/-- The assignments of one iteration of the connections loop, in source order, for a
connection whose prefix filters flatten to `fs`. -/
def connAssignments (K : Consts) (inst : Connection) (fs : List PrefixFilterMap) :
    List (String × Option ConnValue) :=
  [(ID, inst.ID.map fun s => .scalar (.str s)),
   (tgConnName, inst.Name.map fun s => .scalar (.str s)),
   (K.tgNetworkType, inst.NetworkType.map fun s => .scalar (.str s)),
   (K.tgNetworkId, inst.NetworkID.map fun s => .scalar (.str s)),
   (K.tgNetworkAccountID, inst.NetworkAccountID.map fun s => .scalar (.str s)),
   (K.tgBaseConnectionId, inst.BaseConnectionID.map fun s => .scalar (.str s)),
   (tgBaseNetworkType, inst.BaseNetworkType.map fun s => .scalar (.str s)),
   (K.tgLocalBgpAsn, inst.LocalBgpAsn.map fun n => .scalar (.int n)),
   (K.tgLocalGatewayIp, inst.LocalGatewayIp.map fun s => .scalar (.str s)),
   (K.tgLocalTunnelIp, inst.LocalTunnelIp.map fun s => .scalar (.str s)),
   (K.tgRemoteBgpAsn, inst.RemoteBgpAsn.map fun n => .scalar (.int n)),
   (K.tgRemoteGatewayIp, inst.RemoteGatewayIp.map fun s => .scalar (.str s)),
   (K.tgRemoteTunnelIp, inst.RemoteTunnelIp.map fun s => .scalar (.str s)),
   (K.tgZone, (inst.Zone.bind fun zone => zone.Name).map fun s => .scalar (.str s)),
   (K.tgMtu, inst.Mtu.map fun n => .scalar (.int n)),
   (K.tgConectionCreatedAt, inst.CreatedAt.map fun t => .scalar (.str t.String)),
   (K.tgUpdatedAt, inst.UpdatedAt.map fun t => .scalar (.str t.String)),
   (K.tgConnectionStatus, inst.Status.map fun s => .scalar (.str s)),
   (K.tgPrefixFilters, some (.filters fs)),
   (tgPrefixFiltersDefault, inst.PrefixFiltersDefault.map fun s => .scalar (.str s))]

/-! ## Sample inputs -/

/-- A connection with every pointer nil and no prefix filters. -/
def emptyConnection : Connection where
  ID := none
  Name := none
  NetworkType := none
  NetworkID := none
  NetworkAccountID := none
  BaseConnectionID := none
  BaseNetworkType := none
  LocalBgpAsn := none
  LocalGatewayIp := none
  LocalTunnelIp := none
  RemoteBgpAsn := none
  RemoteGatewayIp := none
  RemoteTunnelIp := none
  Zone := none
  Mtu := none
  CreatedAt := none
  UpdatedAt := none
  Status := none
  PrefixFilters := []
  PrefixFiltersDefault := none
  RequestStatus := none

/-- A prefix filter carrying only its creation time. -/
def sampleFilter : PrefixFilter where
  ID := some "pf-1"
  Action := some "permit"
  Before := none
  CreatedAt := some ⟨"2021-01-01T00:00:00Z"⟩
  Ge := none
  Le := some 24
  Prefix := some "10.0.0.0/8"
  UpdatedAt := none

/-- A connection with some fields present, a named zone and one prefix filter. -/
def sampleConnection : Connection :=
  { emptyConnection with
    ID := some "conn-1"
    Name := some "vpc-east"
    NetworkType := some "vpc"
    Zone := some ⟨some "us-south-1"⟩
    Mtu := some 1500
    PrefixFilters := [sampleFilter]
    PrefixFiltersDefault := some "permit" }

/-- A connection whose zone object is present but carries no name. -/
def zoneWithoutName : Connection :=
  { emptyConnection with ID := some "conn-2", Zone := some ⟨none⟩ }

/-- A connection with one prefix filter that carries no creation time. -/
def filterWithoutCreatedAt : Connection :=
  { emptyConnection with
    ID := some "conn-3"
    PrefixFilters := [{ sampleFilter with CreatedAt := none }] }

/-- A resource data with no id and only the lookup name configured. -/
def sampleData : ResourceData where
  id := ""
  attrs := [("name", .scalar (.str "gw"))]

/-- A client that answers every call with the given gateways and connections. -/
def listingClient (gws : List TransitGateway) (cs : List Connection) : Client where
  ListTransitGateways := .ok ⟨gws⟩
  ListTransitGatewayConnections := fun _ => .ok ⟨cs⟩
  GetTransitGatewayConnection := fun _ _ => .error ⟨none, "unused"⟩
  GetTransitGateway := fun _ => .error ⟨none, "unused"⟩
  CreateTransitGatewayConnectionActions := fun _ _ _ => .error ⟨none, "unused"⟩

/-! ## Vocabulary of the gateway lookup -/

/-- The gateway carries the configured name: `*tgw.Name == gwName`. -/
def TransitGateway.named (gwName : String) (tgw : TransitGateway) : Bool :=
  decide (tgw.Name = some gwName)

/-- The pointers the gateway loop dereferences without a nil check are not nil: the name
of every gateway and, for a gateway with the configured name, its id, its creation time
and the id of its resource group when it has one. -/
def TransitGateway.unguardedPresent (gwName : String) (tgw : TransitGateway) : Bool :=
  tgw.Name.isSome &&
    (!tgw.named gwName ||
      (tgw.ID.isSome && tgw.CreatedAt.isSome &&
        match tgw.ResourceGroup with
        | none => true
        | some rg => rg.ID.isSome))

/-- The writes of `copyGateway` after `SetId`, in source order, for creation time
`createdAt`. -/
def gatewayAssignments (K : Consts) (tgw : TransitGateway) (createdAt : DateTime) :
    List (String × Option Value) :=
  [(K.tgCrn, some (.scalar (Scalar.ofStrPtr tgw.Crn))),
   (K.tgName, some (.scalar (Scalar.ofStrPtr tgw.Name))),
   (K.tgLocation, some (.scalar (Scalar.ofStrPtr tgw.Location))),
   (K.tgCreatedAt, some (.scalar (.str createdAt.String))),
   (K.tgUpdatedAt, tgw.UpdatedAt.map fun t => .scalar (.str t.String)),
   (K.tgGlobal, some (.scalar (Scalar.ofBoolPtr tgw.Global))),
   (K.tgStatus, some (.scalar (Scalar.ofStrPtr tgw.Status))),
   (K.tgResourceGroup,
     (tgw.ResourceGroup.bind fun rg => rg.ID).map fun s => .scalar (.str s))]

/-- The resource data holds the values of gateway `g`: its id is the id of `g`; crn,
name, location, created_at, global and status are those of `g`; updated_at and
resource_group are those of `g` when `g` carries them. -/
def ResourceData.mirrors (K : Consts) (d : ResourceData) (g : TransitGateway) : Prop :=
  some d.id = g.ID ∧
  mapGet d.attrs K.tgCrn = some (.scalar (Scalar.ofStrPtr g.Crn)) ∧
  mapGet d.attrs K.tgName = some (.scalar (Scalar.ofStrPtr g.Name)) ∧
  mapGet d.attrs K.tgLocation = some (.scalar (Scalar.ofStrPtr g.Location)) ∧
  mapGet d.attrs K.tgCreatedAt = g.CreatedAt.map (fun t => .scalar (.str t.String)) ∧
  mapGet d.attrs K.tgGlobal = some (.scalar (Scalar.ofBoolPtr g.Global)) ∧
  mapGet d.attrs K.tgStatus = some (.scalar (Scalar.ofStrPtr g.Status)) ∧
  (∀ t, g.UpdatedAt = some t →
    mapGet d.attrs K.tgUpdatedAt = some (.scalar (.str t.String))) ∧
  (∀ rg rgID, g.ResourceGroup = some rg → rg.ID = some rgID →
    mapGet d.attrs K.tgResourceGroup = some (.scalar (.str rgID)))

/-- A gateway named `gw`. -/
def gatewayFirst : TransitGateway where
  ID := some "id-first"
  Crn := some "crn-first"
  Name := some "gw"
  Location := some "us-south"
  CreatedAt := some ⟨"2020-01-01T00:00:00Z"⟩
  Global := some false
  ResourceGroup := some ⟨some "rg-first"⟩
  Status := some "available"
  UpdatedAt := some ⟨"2020-02-02T00:00:00Z"⟩

/-- Another gateway named `gw`, listed after `gatewayFirst`. -/
def gatewaySecond : TransitGateway where
  ID := some "id-second"
  Crn := some "crn-second"
  Name := some "gw"
  Location := some "eu-de"
  CreatedAt := some ⟨"2021-01-01T00:00:00Z"⟩
  Global := some true
  ResourceGroup := none
  Status := some "pending"
  UpdatedAt := none

/-- A gateway with another name. -/
def gatewayOther : TransitGateway :=
  { gatewayFirst with ID := some "id-other", Name := some "other" }

/-! ## Vocabulary of the failure properties -/

/-- The call fails on `client`, the 404 on the connection fetch left aside. -/
def Client.fails (client : Client) : SdkCall → Bool
  | .ListTransitGateways =>
    match client.ListTransitGateways with
    | .error _ => true
    | .ok _ => false
  | .ListTransitGatewayConnections transitGatewayID =>
    match client.ListTransitGatewayConnections transitGatewayID with
    | .error _ => true
    | .ok _ => false
  | .GetTransitGatewayConnection transitGatewayID connID =>
    match client.GetTransitGatewayConnection transitGatewayID connID with
    | .error e =>
      match e.response with
      | some response => decide (response.StatusCode ≠ 404)
      | none => true
    | .ok _ => false
  | .GetTransitGateway gatewayId =>
    match client.GetTransitGateway gatewayId with
    | .error _ => true
    | .ok _ => false
  | .CreateTransitGatewayConnectionActions transitGatewayID connID action =>
    match client.CreateTransitGatewayConnectionActions transitGatewayID connID action with
    | .error _ => true
    | .ok _ => false

/-- A run started on resource data `d` stops at a failed call: a call of the run that
fails is its last call, the run returns an error, and when that call is the only call of
the run the resource data is `d` again. -/
def Outcome.stopsAtFailure (out : Outcome) (client : Client) (d : ResourceData) : Prop :=
  ∀ c ∈ out.calls, client.fails c = true →
    out.calls.getLast? = some c ∧ (∃ msg, out.result = .error msg) ∧
      (out.calls = [c] → out.d = d)

/-- A response with status 500. -/
def serverError : SdkError := ⟨some ⟨500, "500 Internal Server Error"⟩, "internal error"⟩

/-- A response with status 404. -/
def notFound : SdkError := ⟨some ⟨404, "404 Not Found"⟩, "not found"⟩

/-- A client on which every call fails with status 500. -/
def failingClient : Client where
  ListTransitGateways := .error serverError
  ListTransitGatewayConnections := fun _ => .error serverError
  GetTransitGatewayConnection := fun _ _ => .error serverError
  GetTransitGateway := fun _ => .error serverError
  CreateTransitGatewayConnectionActions := fun _ _ _ => .error serverError

/-- A client that does not find the connection. -/
def notFoundClient : Client :=
  { failingClient with GetTransitGatewayConnection := fun _ _ => .error notFound }

/-- A client that accepts the action. -/
def acceptingClient : Client :=
  { failingClient with
    CreateTransitGatewayConnectionActions := fun _ _ _ => .ok ⟨204, "204 No Content"⟩ }

/-- A client that lists the given gateways and fails to list connections. -/
def connectionsFailingClient (gws : List TransitGateway) : Client :=
  { failingClient with ListTransitGateways := .ok ⟨gws⟩ }

/-- A client that returns the connection and fails to return the gateway. -/
def gatewayFailingClient : Client :=
  { failingClient with
    GetTransitGatewayConnection := fun _ _ =>
      .ok { sampleConnection with RequestStatus := some "pending" } }

/-- Resource data of a connection action with a two-part id. -/
def actionData : ResourceData where
  id := "gw-1/conn-1"
  attrs := [("gateway", .scalar (.str "gw-1")), ("connection_id", .scalar (.str "conn-1")),
    ("action", .scalar (.str "approve"))]

/-- An `idParts` that answers the two parts of the id of `actionData`. -/
def fixedIdParts : String → Except String (List String) :=
  fun _ => .ok ["gw-1", "conn-1"]

/-! # Theorems -/

/-! ## Go maps -/

theorem mapGet_mapSet_same {α : Type} (m : List (String × α)) (k : String) (v : α) :
    mapGet (mapSet m k v) k = some v := by
  induction m with
  | nil => simp [mapSet, mapGet]
  | cons a rest ih =>
    obtain ⟨k', v'⟩ := a
    by_cases h : k' = k
    · simp [mapSet, mapGet, h]
    · simp [mapSet, mapGet, h, ih]

theorem mapGet_mapSet_other {α : Type} (m : List (String × α)) (k k' : String) (v : α)
    (h : k ≠ k') : mapGet (mapSet m k v) k' = mapGet m k' := by
  induction m with
  | nil => simp [mapSet, mapGet, h]
  | cons a rest ih =>
    obtain ⟨k₀, v₀⟩ := a
    by_cases h₀ : k₀ = k
    · subst h₀
      simp [mapSet, mapGet, h]
    · by_cases h₁ : k₀ = k'
      · subst h₁
        simp [mapSet, mapGet, h₀]
      · simp [mapSet, mapGet, h₀, h₁, ih]

theorem mapGet_setIf_same {α : Type} (m : List (String × α)) (k : String) (p : Option α) :
    mapGet (setIf m k p) k = p.orElse fun _ => mapGet m k := by
  cases p with
  | none => simp [setIf]
  | some v => simp [setIf, mapGet_mapSet_same]

theorem mapGet_setIf_other {α : Type} (m : List (String × α)) (k k' : String)
    (p : Option α) (h : k ≠ k') : mapGet (setIf m k p) k' = mapGet m k' := by
  cases p with
  | none => simp [setIf]
  | some v => simp [setIf, mapGet_mapSet_other _ _ _ _ h]

theorem assignAll_cons {α : Type} (m : List (String × α)) (a : String × Option α)
    (as : List (String × Option α)) :
    assignAll m (a :: as) = assignAll (setIf m a.1 a.2) as := rfl

/-- Assignments to other keys leave the entry of a key as it is. -/
theorem mapGet_assignAll_other {α : Type} (as : List (String × Option α))
    (m : List (String × α)) (k : String) (h : k ∉ as.map Prod.fst) :
    mapGet (assignAll m as) k = mapGet m k := by
  induction as generalizing m with
  | nil => rfl
  | cons a rest ih =>
    simp only [List.map_cons, List.mem_cons, not_or] at h
    rw [assignAll_cons, ih _ h.2, mapGet_setIf_other _ _ _ _ (Ne.symm h.1)]

/-- With pairwise distinct keys, the entry of an assigned key is the assigned value when
there is one, and the former entry otherwise. -/
theorem mapGet_assignAll_mem {α : Type} (as : List (String × Option α))
    (m : List (String × α)) (k : String) (p : Option α)
    (hnd : (as.map Prod.fst).Nodup) (hmem : (k, p) ∈ as) :
    mapGet (assignAll m as) k = p.orElse fun _ => mapGet m k := by
  induction as generalizing m with
  | nil => simp at hmem
  | cons a rest ih =>
    simp only [List.map_cons, List.nodup_cons] at hnd
    rw [assignAll_cons]
    rcases List.mem_cons.1 hmem with h | h
    · subst h
      rw [mapGet_assignAll_other _ _ _ hnd.1, mapGet_setIf_same]
    · have hk : k ∈ rest.map Prod.fst := List.mem_map.2 ⟨(k, p), h, rfl⟩
      have hne : a.1 ≠ k := fun e => hnd.1 (e ▸ hk)
      rw [ih _ hnd.2 h, mapGet_setIf_other _ _ _ _ hne]

/-! ## Loops that append -/

/-- The loop returns a list exactly when every iteration returns, and then the results
stand in the order of the inputs. -/
theorem rangeAppend_ok_iff {α β : Type} (f : α → Except Panic β) (xs : List α)
    (ys : List β) :
    rangeAppend f xs = .ok ys ↔ List.Forall₂ (fun x y => f x = .ok y) xs ys := by
  induction xs generalizing ys with
  | nil =>
    cases ys with
    | nil => simp [rangeAppend]
    | cons y ys => simp [rangeAppend]
  | cons x xs ih =>
    cases hx : f x with
    | error p =>
      simp only [rangeAppend, hx]
      constructor
      · intro h; cases h
      · intro h
        cases h with
        | cons h1 _ => rw [hx] at h1; cases h1
    | ok y =>
      cases hr : rangeAppend f xs with
      | error p =>
        simp only [rangeAppend, hx, hr]
        constructor
        · intro h; cases h
        · intro h
          cases h with
          | cons _ h2 => rw [← ih] at h2; rw [hr] at h2; cases h2
      | ok zs =>
        simp only [rangeAppend, hx, hr]
        constructor
        · intro h
          cases h
          exact List.Forall₂.cons hx ((ih zs).1 hr)
        · intro h
          cases h with
          | cons h1 h2 =>
            rw [hx] at h1
            cases h1
            rw [← ih] at h2
            rw [hr] at h2
            cases h2
            rfl

theorem rangeAppend_total {α β : Type} (f : α → Except Panic β) (xs : List α)
    (h : ∀ x ∈ xs, ∃ y, f x = .ok y) : ∃ ys, rangeAppend f xs = .ok ys := by
  induction xs with
  | nil => exact ⟨[], rfl⟩
  | cons x xs ih =>
    obtain ⟨y, hy⟩ := h x (List.mem_cons_self _ _)
    obtain ⟨ys, hys⟩ := ih fun z hz => h z (List.mem_cons_of_mem _ hz)
    exact ⟨y :: ys, by simp [rangeAppend, hy, hys]⟩

theorem rangeAppend_error_of_mem {α β : Type} (f : α → Except Panic β) (xs : List α)
    (x : α) (hx : x ∈ xs) (p : Panic) (hp : f x = .error p) :
    ∃ q, rangeAppend f xs = .error q := by
  induction xs with
  | nil => simp at hx
  | cons a rest ih =>
    rcases List.mem_cons.1 hx with h | h
    · subst h
      exact ⟨p, by simp [rangeAppend, hp]⟩
    · obtain ⟨q, hq⟩ := ih h
      cases ha : f a with
      | error r => exact ⟨r, by simp [rangeAppend, ha]⟩
      | ok y => exact ⟨q, by simp [rangeAppend, ha, hq]⟩

/-! ## Flattening -/

theorem flattenPrefixFilter_ok (K : Consts) (prefixFilter : PrefixFilter)
    (h : prefixFilter.CreatedAt.isSome = true) :
    ∃ m, flattenPrefixFilter K prefixFilter = .ok m := by
  cases hc : prefixFilter.CreatedAt with
  | none => rw [hc] at h; cases h
  | some t => simp [flattenPrefixFilter, hc]

theorem connAssignments_keys (K : Consts) (inst : Connection) (fs : List PrefixFilterMap) :
    (connAssignments K inst fs).map Prod.fst = connKeys K := rfl

/-- A connection whose unguarded pointers are present flattens to the map obtained by
carrying out its assignments in order. -/
theorem flattenConnection_eq (K : Consts) (inst : Connection)
    (h : inst.unguardedPresent = true) :
    ∃ fs, rangeAppend (flattenPrefixFilter K) inst.PrefixFilters = .ok fs ∧
      flattenConnection K inst = .ok (assignAll [] (connAssignments K inst fs)) := by
  simp only [Connection.unguardedPresent, Bool.and_eq_true, List.all_eq_true] at h
  obtain ⟨hz, hp⟩ := h
  obtain ⟨fs, hfs⟩ := rangeAppend_total (flattenPrefixFilter K) inst.PrefixFilters
    fun pf hpf => flattenPrefixFilter_ok K pf (hp pf hpf)
  refine ⟨fs, hfs, ?_⟩
  cases hzone : inst.Zone with
  | none =>
    simp [flattenConnection, flattenZone, flattenHead, hzone, hfs, assignAll,
      connAssignments, setIf]
  | some zone =>
    rw [hzone] at hz
    dsimp only at hz
    cases hn : zone.Name with
    | none => rw [hn] at hz; cases hz
    | some name =>
      simp [flattenConnection, flattenZone, flattenHead, hzone, hn, hfs, assignAll,
        connAssignments, setIf]

theorem zone_name_isSome (inst : Connection) (h : inst.unguardedPresent = true) :
    (inst.Zone.bind fun zone => zone.Name).isSome = inst.Zone.isSome := by
  simp only [Connection.unguardedPresent, Bool.and_eq_true] at h
  cases hzone : inst.Zone with
  | none => rfl
  | some zone =>
    have hz := h.1
    rw [hzone] at hz
    dsimp only at hz
    simpa using hz

/-- Every copied field has its assignment in the list, guarded by the presence of the
field. -/
theorem connAssignments_field (K : Consts) (inst : Connection) (fs : List PrefixFilterMap)
    (f : ConnField) : (f.key K, f.copied inst) ∈ connAssignments K inst fs := by
  cases f <;> simp [connAssignments, ConnField.key, ConnField.copied]

theorem copied_isSome (inst : Connection) (h : inst.unguardedPresent = true)
    (f : ConnField) : (f.copied inst).isSome = f.present inst := by
  have hz := zone_name_isSome inst h
  cases f
  case zone =>
    cases hb : (inst.Zone.bind fun zone => zone.Name) with
    | none => rw [hb] at hz; simp [ConnField.copied, ConnField.present, hb, ← hz]
    | some n => rw [hb] at hz; simp [ConnField.copied, ConnField.present, hb, ← hz]
  all_goals simp [ConnField.copied, ConnField.present]

theorem isSome_orElse_none {α : Type} (p : Option α) :
    (p.orElse fun _ => (none : Option α)).isSome = p.isSome := by
  cases p <;> rfl

/-- C4: a connection whose two unguarded pointers are present is flattened to a map
that, for every nullable scalar field the reader copies, has an entry under the key of
the field if and only if the field is present; so when all of them are absent the map has
no entry under any of their keys. -/
theorem flattenConnection_entry_iff_present (K : Consts) (inst : Connection)
    (hK : (connKeys K).Nodup) (h : inst.unguardedPresent = true) :
    ∃ tgConn, flattenConnection K inst = .ok tgConn ∧
      (∀ f : ConnField, (mapGet tgConn (f.key K)).isSome = f.present inst) ∧
      ((∀ f : ConnField, f.present inst = false) →
        ∀ f : ConnField, mapGet tgConn (f.key K) = none) := by
  obtain ⟨fs, _, hflat⟩ := flattenConnection_eq K inst h
  have key : ∀ f : ConnField,
      (mapGet (assignAll [] (connAssignments K inst fs)) (f.key K)).isSome
        = f.present inst := by
    intro f
    rw [mapGet_assignAll_mem _ _ _ _ (by rw [connAssignments_keys]; exact hK)
      (connAssignments_field K inst fs f)]
    simpa [mapGet, isSome_orElse_none] using copied_isSome inst h f
  refine ⟨_, hflat, key, fun habs f => ?_⟩
  have := key f
  rw [habs f] at this
  simpa using this

/-- The connection keys of `sampleConsts` are pairwise distinct. -/
theorem sampleConsts_connKeys_nodup : (connKeys sampleConsts).Nodup := by
  decide

/-- The statement of `flattenConnection_entry_iff_present` at `sampleConnection`. -/
theorem flattenConnection_entry_iff_present_witness :
    (connKeys sampleConsts).Nodup ∧ sampleConnection.unguardedPresent = true ∧
    ∃ tgConn, flattenConnection sampleConsts sampleConnection = .ok tgConn ∧
      (∀ f : ConnField, (mapGet tgConn (f.key sampleConsts)).isSome
        = f.present sampleConnection) ∧
      ((∀ f : ConnField, f.present sampleConnection = false) →
        ∀ f : ConnField, mapGet tgConn (f.key sampleConsts) = none) :=
  ⟨sampleConsts_connKeys_nodup, by decide,
    flattenConnection_entry_iff_present sampleConsts sampleConnection
      sampleConsts_connKeys_nodup (by decide)⟩

/-! ## Unguarded dereferences -/

/-- C5: a listed connection whose zone object carries no name, and a listed connection
with a prefix filter that carries no creation time, each make the connections reader stop
with a nil dereference after the listing call; nothing is written. -/
theorem connectionsRead_nil_dereference :
    dataSourceIBMTransitGatewayConnectionsRead sampleConsts sampleData
        (.ok (listingClient [] [zoneWithoutName]))
      = ⟨sampleData, [.ListTransitGatewayConnections ""], .panic .nilDereference⟩ ∧
    dataSourceIBMTransitGatewayConnectionsRead sampleConsts sampleData
        (.ok (listingClient [] [filterWithoutCreatedAt]))
      = ⟨sampleData, [.ListTransitGatewayConnections ""], .panic .nilDereference⟩ := by
  decide

/-! ## The connections attribute -/

/-- The map of a connection has its prefix filters under `tgPrefixFilters`, one map per
prefix filter and in the same order. -/
theorem flattenConnection_prefixFilters (K : Consts) (inst : Connection)
    (hK : (connKeys K).Nodup) (h : inst.unguardedPresent = true) :
    ∃ tgConn, flattenConnection K inst = .ok tgConn ∧
      ∃ fs, mapGet tgConn K.tgPrefixFilters = some (.filters fs) ∧
        fs.length = inst.PrefixFilters.length ∧
        List.Forall₂ (fun prefixFilter m => flattenPrefixFilter K prefixFilter = .ok m)
          inst.PrefixFilters fs := by
  obtain ⟨fs, hfs, hflat⟩ := flattenConnection_eq K inst h
  have hall := (rangeAppend_ok_iff _ _ _).1 hfs
  refine ⟨_, hflat, fs, ?_, hall.length_eq.symm, hall⟩
  rw [mapGet_assignAll_mem _ _ _ (some (.filters fs))
    (by rw [connAssignments_keys]; exact hK) (by simp [connAssignments])]
  rfl

theorem flattenConnections_parallel (K : Consts) (cs : List Connection)
    (hK : (connKeys K).Nodup) (h : ∀ c ∈ cs, c.unguardedPresent = true) :
    ∃ connections, flattenConnections K cs = .ok connections ∧
      List.Forall₂ (fun c tgConn => flattenConnection K c = .ok tgConn ∧
        ∃ fs, mapGet tgConn K.tgPrefixFilters = some (.filters fs) ∧
          fs.length = c.PrefixFilters.length ∧
          List.Forall₂ (fun prefixFilter m => flattenPrefixFilter K prefixFilter = .ok m)
            c.PrefixFilters fs) cs connections := by
  induction cs with
  | nil => exact ⟨[], rfl, List.Forall₂.nil⟩
  | cons c rest ih =>
    obtain ⟨tgConn, hc, hfs⟩ :=
      flattenConnection_prefixFilters K c hK (h c (List.mem_cons_self _ _))
    obtain ⟨connections, hrest, hall⟩ := ih fun x hx => h x (List.mem_cons_of_mem _ hx)
    refine ⟨tgConn :: connections, ?_, List.Forall₂.cons ⟨hc, hfs⟩ hall⟩
    simp only [flattenConnections] at hrest
    simp [flattenConnections, rangeAppend, hc, hrest]

/-- C10: when the listing succeeds with connections whose two unguarded pointers are
present, the reader returns nil after writing under `connections` a list with one map per
listed connection, in order; the i-th map is the flattening of the i-th connection, and
its `prefix_filters` entry is present and holds one map per prefix filter of that
connection, in order (the empty list when there is none). -/
theorem connectionsRead_connections_parallel (K : Consts) (d : ResourceData)
    (client : Client) (cs : List Connection) (hK : (connKeys K).Nodup)
    (hlist : client.ListTransitGatewayConnections d.Id = .ok ⟨cs⟩)
    (h : ∀ c ∈ cs, c.unguardedPresent = true) :
    ∃ connections,
      dataSourceIBMTransitGatewayConnectionsRead K d (.ok client)
        = ⟨d.Set tgConnections (.connections connections),
            [.ListTransitGatewayConnections d.Id], .nil⟩ ∧
      mapGet (d.Set tgConnections (.connections connections)).attrs tgConnections
        = some (.connections connections) ∧
      connections.length = cs.length ∧
      List.Forall₂ (fun c tgConn => flattenConnection K c = .ok tgConn ∧
        ∃ fs, mapGet tgConn K.tgPrefixFilters = some (.filters fs) ∧
          fs.length = c.PrefixFilters.length ∧
          List.Forall₂ (fun prefixFilter m => flattenPrefixFilter K prefixFilter = .ok m)
            c.PrefixFilters fs) cs connections := by
  obtain ⟨connections, hflat, hall⟩ := flattenConnections_parallel K cs hK h
  refine ⟨connections, ?_, ?_, hall.length_eq.symm, hall⟩
  · simp [dataSourceIBMTransitGatewayConnectionsRead, hlist, hflat]
  · simp [ResourceData.Set, mapGet_mapSet_same]

/-- The statement of `connectionsRead_connections_parallel` at a listing of two connections. -/
theorem connectionsRead_connections_parallel_witness :
    (connKeys sampleConsts).Nodup ∧
    (listingClient [] [sampleConnection, emptyConnection]).ListTransitGatewayConnections
        sampleData.Id = .ok ⟨[sampleConnection, emptyConnection]⟩ ∧
    (∀ c ∈ [sampleConnection, emptyConnection], c.unguardedPresent = true) ∧
    ∃ connections,
      dataSourceIBMTransitGatewayConnectionsRead sampleConsts sampleData
          (.ok (listingClient [] [sampleConnection, emptyConnection]))
        = ⟨sampleData.Set tgConnections (.connections connections),
            [.ListTransitGatewayConnections sampleData.Id], .nil⟩ ∧
      mapGet (sampleData.Set tgConnections (.connections connections)).attrs tgConnections
        = some (.connections connections) ∧
      connections.length = [sampleConnection, emptyConnection].length ∧
      List.Forall₂ (fun c tgConn => flattenConnection sampleConsts c = .ok tgConn ∧
        ∃ fs, mapGet tgConn sampleConsts.tgPrefixFilters = some (.filters fs) ∧
          fs.length = c.PrefixFilters.length ∧
          List.Forall₂
            (fun prefixFilter m => flattenPrefixFilter sampleConsts prefixFilter = .ok m)
            c.PrefixFilters fs) [sampleConnection, emptyConnection] connections :=
  ⟨sampleConsts_connKeys_nodup, rfl, by decide,
    connectionsRead_connections_parallel sampleConsts sampleData
      (listingClient [] [sampleConnection, emptyConnection])
      [sampleConnection, emptyConnection] sampleConsts_connKeys_nodup rfl (by decide)⟩

/-! ## The gateway loop -/

/-- Gateways that carry another name leave the loop state as it is. -/
theorem scanGateways_no_match (K : Consts) (gwName : String) (gws : List TransitGateway)
    (d : ResourceData) (found : Bool) (hname : ∀ g ∈ gws, g.Name.isSome = true)
    (hnone : ∀ g ∈ gws, g.Name ≠ some gwName) :
    scanGateways K gwName gws d found = ⟨d, found, none⟩ := by
  induction gws with
  | nil => rfl
  | cons g rest ih =>
    have hg := hname g (List.mem_cons_self _ _)
    have hn := hnone g (List.mem_cons_self _ _)
    cases hN : g.Name with
    | none => rw [hN] at hg; cases hg
    | some name =>
      have hne : name ≠ gwName := fun e => hn (by rw [hN, e])
      simp only [scanGateways, hN, if_neg hne]
      exact ih (fun x hx => hname x (List.mem_cons_of_mem _ hx))
        (fun x hx => hnone x (List.mem_cons_of_mem _ hx))

theorem gatewayAssignments_keys (K : Consts) (tgw : TransitGateway) (createdAt : DateTime) :
    (gatewayAssignments K tgw createdAt).map Prod.fst ++ [tgConnections] = gatewayKeys K :=
  rfl

theorem gatewayAssignments_nodup (K : Consts) (tgw : TransitGateway) (createdAt : DateTime)
    (hK : (gatewayKeys K).Nodup) :
    ((gatewayAssignments K tgw createdAt).map Prod.fst).Nodup := by
  rw [← gatewayAssignments_keys K tgw createdAt] at hK
  exact (List.nodup_append.1 hK).1

/-- No gateway attribute is stored under the key of the connections. -/
theorem gatewayKey_ne_connections (K : Consts) (hK : (gatewayKeys K).Nodup) (k : String)
    (hk : k ∈ [K.tgCrn, K.tgName, K.tgLocation, K.tgCreatedAt, K.tgUpdatedAt, K.tgGlobal,
      K.tgStatus, K.tgResourceGroup]) : tgConnections ≠ k := by
  have h : gatewayKeys K = [K.tgCrn, K.tgName, K.tgLocation, K.tgCreatedAt, K.tgUpdatedAt,
      K.tgGlobal, K.tgStatus, K.tgResourceGroup] ++ [tgConnections] := rfl
  rw [h] at hK
  have hdis := (List.nodup_append.1 hK).2.2
  intro e
  exact hdis hk (by simp [e])

/-- On a gateway whose unguarded pointers are present, the body of the match writes the
values of the gateway and does not panic. -/
theorem copyGateway_mirrors (K : Consts) (d : ResourceData) (g : TransitGateway)
    (hK : (gatewayKeys K).Nodup) (hid : g.ID.isSome = true)
    (hcreated : g.CreatedAt.isSome = true)
    (hrg : ∀ rg, g.ResourceGroup = some rg → rg.ID.isSome = true) :
    ∃ d', copyGateway K d g = (d', none) ∧ d'.mirrors K g := by
  cases hID : g.ID with
  | none => rw [hID] at hid; cases hid
  | some id =>
    cases hC : g.CreatedAt with
    | none => rw [hC] at hcreated; cases hcreated
    | some createdAt =>
      have hcopy : copyGateway K d g
          = (⟨id, assignAll d.attrs (gatewayAssignments K g createdAt)⟩, none) := by
        cases hR : g.ResourceGroup with
        | none =>
          simp [copyGateway, hID, hC, hR, assignAll, gatewayAssignments, setIf,
            ResourceData.Set, ResourceData.SetIf, ResourceData.SetId]
        | some rg =>
          have := hrg rg hR
          cases hrgID : rg.ID with
          | none => rw [hrgID] at this; cases this
          | some rgID =>
            simp [copyGateway, hID, hC, hR, hrgID, assignAll, gatewayAssignments, setIf,
              ResourceData.Set, ResourceData.SetIf, ResourceData.SetId]
      have hnd := gatewayAssignments_nodup K g createdAt hK
      have get : ∀ k p, (k, p) ∈ gatewayAssignments K g createdAt →
          mapGet (assignAll d.attrs (gatewayAssignments K g createdAt)) k
            = p.orElse fun _ => mapGet d.attrs k :=
        fun k p hmem => mapGet_assignAll_mem _ _ k p hnd hmem
      refine ⟨_, hcopy, hID.symm, ?_, ?_, ?_, ?_, ?_, ?_, ?_, ?_⟩
      · rw [get K.tgCrn (some (.scalar (Scalar.ofStrPtr g.Crn)))
          (by simp [gatewayAssignments])]; rfl
      · rw [get K.tgName (some (.scalar (Scalar.ofStrPtr g.Name)))
          (by simp [gatewayAssignments])]; rfl
      · rw [get K.tgLocation (some (.scalar (Scalar.ofStrPtr g.Location)))
          (by simp [gatewayAssignments])]; rfl
      · rw [get K.tgCreatedAt (some (.scalar (.str createdAt.String)))
          (by simp [gatewayAssignments]), hC]; rfl
      · rw [get K.tgGlobal (some (.scalar (Scalar.ofBoolPtr g.Global)))
          (by simp [gatewayAssignments])]; rfl
      · rw [get K.tgStatus (some (.scalar (Scalar.ofStrPtr g.Status)))
          (by simp [gatewayAssignments])]; rfl
      · intro t ht
        rw [get K.tgUpdatedAt (g.UpdatedAt.map fun t => .scalar (.str t.String))
          (by simp [gatewayAssignments]), ht]; rfl
      · intro rg rgID hR hrgID
        rw [get K.tgResourceGroup
          ((g.ResourceGroup.bind fun rg => rg.ID).map fun s => .scalar (.str s))
          (by simp [gatewayAssignments]), hR]
        simp [hrgID]

theorem named_iff (gwName : String) (g : TransitGateway) :
    g.named gwName = true ↔ g.Name = some gwName := by
  simp [TransitGateway.named]

/-- On gateways whose unguarded pointers are present the loop does not panic, it finds a
gateway exactly when one carries the name, and it leaves the values of the last gateway
that carries the name. -/
theorem scanGateways_last (K : Consts) (gwName : String) (hK : (gatewayKeys K).Nodup)
    (gws : List TransitGateway) (d : ResourceData) (found : Bool)
    (h : ∀ g ∈ gws, g.unguardedPresent gwName = true) :
    (scanGateways K gwName gws d found).panicked = none ∧
    (scanGateways K gwName gws d found).foundGateway
      = (found || gws.any fun g => g.named gwName) ∧
    (∀ g, (gws.filter fun g => g.named gwName).getLast? = some g →
      (scanGateways K gwName gws d found).d.mirrors K g) ∧
    ((gws.filter fun g => g.named gwName) = [] →
      (scanGateways K gwName gws d found).d = d) := by
  induction gws generalizing d found with
  | nil => simp [scanGateways]
  | cons g rest ih =>
    have hg := h g (List.mem_cons_self _ _)
    have hrest : ∀ x ∈ rest, x.unguardedPresent gwName = true :=
      fun x hx => h x (List.mem_cons_of_mem _ hx)
    simp only [TransitGateway.unguardedPresent, Bool.and_eq_true, Bool.or_eq_true,
      Bool.not_eq_true'] at hg
    obtain ⟨hname, hmatch⟩ := hg
    cases hN : g.Name with
    | none => rw [hN] at hname; cases hname
    | some name =>
      by_cases e : name = gwName
      · subst e
        have hnamed : g.named name = true := (named_iff _ _).2 hN
        rcases hmatch with hf | ⟨⟨hid, hcreated⟩, hrg⟩
        · rw [hnamed] at hf; cases hf
        · have hrg' : ∀ rg, g.ResourceGroup = some rg → rg.ID.isSome = true := by
            intro rg hR
            rw [hR] at hrg
            exact hrg
          obtain ⟨d', hcopy, hmir⟩ := copyGateway_mirrors K d g hK hid hcreated hrg'
          obtain ⟨ih1, ih2, ih3, ih4⟩ := ih d' true hrest
          have hscan : scanGateways K name (g :: rest) d found
              = scanGateways K name rest d' true := by
            simp only [scanGateways, hN, if_true, hcopy]
          rw [hscan, List.filter_cons_of_pos hnamed]
          refine ⟨ih1, ?_, ?_, ?_⟩
          · rw [ih2]; simp [hnamed]
          · intro x hx
            cases hf : rest.filter fun g => g.named name with
            | nil =>
              rw [hf] at hx
              simp only [List.getLast?_singleton, Option.some.injEq] at hx
              subst hx
              rw [ih4 hf]
              exact hmir
            | cons y ys =>
              rw [hf, List.getLast?_cons_cons] at hx
              exact ih3 x (by rw [hf]; exact hx)
          · intro hnil
            cases hnil
      · have hnamed : g.named gwName = false := by
          rw [Bool.eq_false_iff]
          intro hn
          rw [named_iff, hN] at hn
          exact e (Option.some.inj hn)
        obtain ⟨ih1, ih2, ih3, ih4⟩ := ih d found hrest
        have hscan : scanGateways K gwName (g :: rest) d found
            = scanGateways K gwName rest d found := by
          simp only [scanGateways, hN, if_neg e]
        have hfilter : ((g :: rest).filter fun g => g.named gwName)
            = rest.filter fun g => g.named gwName :=
          List.filter_cons_of_neg (by simp [hnamed])
        rw [hscan, hfilter]
        refine ⟨ih1, ?_, ih3, ih4⟩
        rw [ih2]; simp [hnamed]

/-! ## The connections reader leaves the gateway values alone -/

theorem connectionsRead_calls (K : Consts) (d : ResourceData) (client : Client) :
    (dataSourceIBMTransitGatewayConnectionsRead K d (.ok client)).calls
      = [.ListTransitGatewayConnections d.Id] := by
  cases hl : client.ListTransitGatewayConnections d.Id with
  | error e => simp [dataSourceIBMTransitGatewayConnectionsRead, hl]
  | ok listTGConnections =>
    cases hf : flattenConnections K listTGConnections.Connections <;>
      simp [dataSourceIBMTransitGatewayConnectionsRead, hl, hf]

theorem connectionsRead_id (K : Consts) (d : ResourceData) (client : Client) :
    (dataSourceIBMTransitGatewayConnectionsRead K d (.ok client)).d.id = d.id := by
  cases hl : client.ListTransitGatewayConnections d.Id with
  | error e => simp [dataSourceIBMTransitGatewayConnectionsRead, hl]
  | ok listTGConnections =>
    cases hf : flattenConnections K listTGConnections.Connections <;>
      simp [dataSourceIBMTransitGatewayConnectionsRead, hl, hf, ResourceData.Set]

theorem connectionsRead_attr (K : Consts) (d : ResourceData) (client : Client)
    (k : String) (hk : tgConnections ≠ k) :
    mapGet (dataSourceIBMTransitGatewayConnectionsRead K d (.ok client)).d.attrs k
      = mapGet d.attrs k := by
  cases hl : client.ListTransitGatewayConnections d.Id with
  | error e => simp [dataSourceIBMTransitGatewayConnectionsRead, hl]
  | ok listTGConnections =>
    cases hf : flattenConnections K listTGConnections.Connections <;>
      simp [dataSourceIBMTransitGatewayConnectionsRead, hl, hf, ResourceData.Set,
        mapGet_mapSet_other _ _ _ _ hk]

theorem connectionsRead_mirrors (K : Consts) (d : ResourceData) (client : Client)
    (g : TransitGateway) (hK : (gatewayKeys K).Nodup) (h : d.mirrors K g) :
    (dataSourceIBMTransitGatewayConnectionsRead K d (.ok client)).d.mirrors K g := by
  have ne : ∀ k, k ∈ [K.tgCrn, K.tgName, K.tgLocation, K.tgCreatedAt, K.tgUpdatedAt,
      K.tgGlobal, K.tgStatus, K.tgResourceGroup] → tgConnections ≠ k :=
    fun k hk => gatewayKey_ne_connections K hK k hk
  obtain ⟨h1, h2, h3, h4, h5, h6, h7, h8, h9⟩ := h
  refine ⟨?_, ?_, ?_, ?_, ?_, ?_, ?_, ?_, ?_⟩
  · rw [connectionsRead_id]; exact h1
  · rw [connectionsRead_attr _ _ _ _ (ne _ (by simp))]; exact h2
  · rw [connectionsRead_attr _ _ _ _ (ne _ (by simp))]; exact h3
  · rw [connectionsRead_attr _ _ _ _ (ne _ (by simp))]; exact h4
  · rw [connectionsRead_attr _ _ _ _ (ne _ (by simp))]; exact h5
  · rw [connectionsRead_attr _ _ _ _ (ne _ (by simp))]; exact h6
  · rw [connectionsRead_attr _ _ _ _ (ne _ (by simp))]; exact h7
  · intro t ht
    rw [connectionsRead_attr _ _ _ _ (ne _ (by simp))]; exact h8 t ht
  · intro rg rgID hR hrg
    rw [connectionsRead_attr _ _ _ _ (ne _ (by simp))]; exact h9 rg rgID hR hrg

/-! ## `dataSourceIBMTransitGatewayRead` -/

/-- When the loop has found a gateway, the reader hands over to the connections reader. -/
theorem gatewayRead_found (K : Consts) (d : ResourceData) (client : Client)
    (gws : List TransitGateway) (hlist : client.ListTransitGateways = .ok ⟨gws⟩)
    (hp : (scanGateways K (d.GetString K.tgName) gws d false).panicked = none)
    (hf : (scanGateways K (d.GetString K.tgName) gws d false).foundGateway = true) :
    dataSourceIBMTransitGatewayRead K d (.ok client)
      = { dataSourceIBMTransitGatewayConnectionsRead K
            (scanGateways K (d.GetString K.tgName) gws d false).d (.ok client) with
          calls := [.ListTransitGateways] ++
            (dataSourceIBMTransitGatewayConnectionsRead K
              (scanGateways K (d.GetString K.tgName) gws d false).d (.ok client)).calls } := by
  simp [dataSourceIBMTransitGatewayRead, hlist, hp, hf]

/-- The reader ends with the values of the last gateway that carries the configured
name, having listed the connections of that gateway. -/
theorem gatewayRead_last (K : Consts) (d : ResourceData) (client : Client)
    (gws : List TransitGateway) (g : TransitGateway) (hK : (gatewayKeys K).Nodup)
    (hlist : client.ListTransitGateways = .ok ⟨gws⟩)
    (h : ∀ x ∈ gws, x.unguardedPresent (d.GetString K.tgName) = true)
    (hlast : (gws.filter fun x => x.named (d.GetString K.tgName)).getLast? = some g) :
    (dataSourceIBMTransitGatewayRead K d (.ok client)).d.mirrors K g ∧
    (dataSourceIBMTransitGatewayRead K d (.ok client)).calls
      = [.ListTransitGateways,
         .ListTransitGatewayConnections
           (dataSourceIBMTransitGatewayRead K d (.ok client)).d.id] := by
  obtain ⟨h1, h2, h3, _⟩ := scanGateways_last K (d.GetString K.tgName) hK gws d false h
  have hmem := List.mem_of_getLast?_eq_some hlast
  rw [List.mem_filter] at hmem
  have hfound : (scanGateways K (d.GetString K.tgName) gws d false).foundGateway = true := by
    rw [h2]
    simp only [Bool.false_or, List.any_eq_true]
    exact ⟨g, hmem.1, hmem.2⟩
  rw [gatewayRead_found K d client gws hlist h1 hfound]
  refine ⟨connectionsRead_mirrors K _ client g hK (h3 g hlast), ?_⟩
  simp [connectionsRead_calls, connectionsRead_id, ResourceData.Id]

/-- C1: when the listing succeeds with gateways that each carry a name and none of these
names is the configured one, the reader returns the not-found error that names the
configured name, has issued the gateway listing only, and has written nothing. -/
theorem gatewayRead_not_found (K : Consts) (d : ResourceData) (client : Client)
    (gws : List TransitGateway) (hlist : client.ListTransitGateways = .ok ⟨gws⟩)
    (hname : ∀ g ∈ gws, g.Name.isSome = true)
    (hnone : ∀ g ∈ gws, g.Name ≠ some (d.GetString K.tgName)) :
    dataSourceIBMTransitGatewayRead K d (.ok client)
      = ⟨d, [.ListTransitGateways],
          .error ("[ERROR] Couldn't find any gateway with the specified name: ("
            ++ d.GetString K.tgName ++ ")")⟩ := by
  simp [dataSourceIBMTransitGatewayRead, hlist,
    scanGateways_no_match K _ gws d false hname hnone]

/-- The statement of `gatewayRead_not_found` at a listing without the configured name. -/
theorem gatewayRead_not_found_witness :
    (listingClient [gatewayOther] []).ListTransitGateways = .ok ⟨[gatewayOther]⟩ ∧
    (∀ g ∈ [gatewayOther], g.Name.isSome = true) ∧
    (∀ g ∈ [gatewayOther], g.Name ≠ some (sampleData.GetString sampleConsts.tgName)) ∧
    dataSourceIBMTransitGatewayRead sampleConsts sampleData
        (.ok (listingClient [gatewayOther] []))
      = ⟨sampleData, [.ListTransitGateways],
          .error ("[ERROR] Couldn't find any gateway with the specified name: ("
            ++ sampleData.GetString sampleConsts.tgName ++ ")")⟩ :=
  ⟨rfl, by decide, by decide,
    gatewayRead_not_found sampleConsts sampleData (listingClient [gatewayOther] [])
      [gatewayOther] rfl (by decide) (by decide)⟩

/-- C2: when the listing succeeds with gateways that each carry a name, exactly one of
them, `g`, carries the configured name, and `g` carries the pointers the reader
dereferences (id, creation time, id of its resource group if any), then the reader ends
with id and crn, name, location, global, status, created_at equal to those of `g`, with
updated_at and resource_group equal to those of `g` when present, and its calls are the
gateway listing followed by the connections listing for the id of `g`. -/
theorem gatewayRead_unique_match (K : Consts) (d : ResourceData) (client : Client)
    (gws : List TransitGateway) (g : TransitGateway) (hK : (gatewayKeys K).Nodup)
    (hlist : client.ListTransitGateways = .ok ⟨gws⟩)
    (hname : ∀ x ∈ gws, x.Name.isSome = true)
    (huniq : (gws.filter fun x => x.named (d.GetString K.tgName)) = [g])
    (hg : g.unguardedPresent (d.GetString K.tgName) = true) :
    (dataSourceIBMTransitGatewayRead K d (.ok client)).d.mirrors K g ∧
    ∃ id, g.ID = some id ∧
      (dataSourceIBMTransitGatewayRead K d (.ok client)).d.id = id ∧
      (dataSourceIBMTransitGatewayRead K d (.ok client)).calls
        = [.ListTransitGateways, .ListTransitGatewayConnections id] := by
  have hall : ∀ x ∈ gws, x.unguardedPresent (d.GetString K.tgName) = true := by
    intro x hx
    by_cases hn : x.named (d.GetString K.tgName) = true
    · have : x ∈ gws.filter fun x => x.named (d.GetString K.tgName) :=
        List.mem_filter.2 ⟨hx, hn⟩
      rw [huniq, List.mem_singleton] at this
      rw [this]; exact hg
    · simp [TransitGateway.unguardedPresent, hname x hx, hn]
  obtain ⟨hmir, hcalls⟩ :=
    gatewayRead_last K d client gws g hK hlist hall (by rw [huniq]; rfl)
  refine ⟨hmir, _, hmir.1.symm, rfl, hcalls⟩

/-- The gateway keys of `sampleConsts` are pairwise distinct. -/
theorem sampleConsts_gatewayKeys_nodup : (gatewayKeys sampleConsts).Nodup := by
  decide

/-- The statement of `gatewayRead_unique_match` at a listing with one gateway named `gw`. -/
theorem gatewayRead_unique_match_witness :
    (gatewayKeys sampleConsts).Nodup ∧
    (listingClient [gatewayOther, gatewayFirst] []).ListTransitGateways
      = .ok ⟨[gatewayOther, gatewayFirst]⟩ ∧
    (∀ x ∈ [gatewayOther, gatewayFirst], x.Name.isSome = true) ∧
    ([gatewayOther, gatewayFirst].filter fun x =>
      x.named (sampleData.GetString sampleConsts.tgName)) = [gatewayFirst] ∧
    gatewayFirst.unguardedPresent (sampleData.GetString sampleConsts.tgName) = true ∧
    ((dataSourceIBMTransitGatewayRead sampleConsts sampleData
        (.ok (listingClient [gatewayOther, gatewayFirst] []))).d.mirrors sampleConsts
        gatewayFirst ∧
      ∃ id, gatewayFirst.ID = some id ∧
        (dataSourceIBMTransitGatewayRead sampleConsts sampleData
          (.ok (listingClient [gatewayOther, gatewayFirst] []))).d.id = id ∧
        (dataSourceIBMTransitGatewayRead sampleConsts sampleData
          (.ok (listingClient [gatewayOther, gatewayFirst] []))).calls
          = [.ListTransitGateways, .ListTransitGatewayConnections id]) :=
  ⟨sampleConsts_gatewayKeys_nodup, rfl, by decide, by decide, by decide,
    gatewayRead_unique_match sampleConsts sampleData
      (listingClient [gatewayOther, gatewayFirst] []) [gatewayOther, gatewayFirst]
      gatewayFirst sampleConsts_gatewayKeys_nodup rfl (by decide) (by decide) (by decide)⟩

/-- C3, as the code has it: when several listed gateways carry the configured name (and
the gateways carry the pointers the reader dereferences), the last match wins: the id
and crn, name, location, created_at, global and status in the resulting state are those
of the last gateway in list order that carries the name, and so are updated_at and
resource_group when that gateway carries them. -/
theorem gatewayRead_last_match_wins (K : Consts) (d : ResourceData) (client : Client)
    (gws : List TransitGateway) (g : TransitGateway) (hK : (gatewayKeys K).Nodup)
    (hlist : client.ListTransitGateways = .ok ⟨gws⟩)
    (h : ∀ x ∈ gws, x.unguardedPresent (d.GetString K.tgName) = true)
    (hlast : (gws.filter fun x => x.named (d.GetString K.tgName)).getLast? = some g) :
    some (dataSourceIBMTransitGatewayRead K d (.ok client)).d.id = g.ID ∧
    (dataSourceIBMTransitGatewayRead K d (.ok client)).d.mirrors K g :=
  ⟨(gatewayRead_last K d client gws g hK hlist h hlast).1.1,
    (gatewayRead_last K d client gws g hK hlist h hlast).1⟩

/-- The statement of `gatewayRead_last_match_wins` at a listing with two gateways named `gw`. -/
theorem gatewayRead_last_match_wins_witness :
    (gatewayKeys sampleConsts).Nodup ∧
    (listingClient [gatewayFirst, gatewaySecond] []).ListTransitGateways
      = .ok ⟨[gatewayFirst, gatewaySecond]⟩ ∧
    (∀ x ∈ [gatewayFirst, gatewaySecond],
      x.unguardedPresent (sampleData.GetString sampleConsts.tgName) = true) ∧
    ([gatewayFirst, gatewaySecond].filter fun x =>
      x.named (sampleData.GetString sampleConsts.tgName)).getLast? = some gatewaySecond ∧
    (some (dataSourceIBMTransitGatewayRead sampleConsts sampleData
        (.ok (listingClient [gatewayFirst, gatewaySecond] []))).d.id = gatewaySecond.ID ∧
      (dataSourceIBMTransitGatewayRead sampleConsts sampleData
        (.ok (listingClient [gatewayFirst, gatewaySecond] []))).d.mirrors sampleConsts
        gatewaySecond) :=
  ⟨sampleConsts_gatewayKeys_nodup, rfl, by decide, by decide,
    gatewayRead_last_match_wins sampleConsts sampleData
      (listingClient [gatewayFirst, gatewaySecond] []) [gatewayFirst, gatewaySecond]
      gatewaySecond sampleConsts_gatewayKeys_nodup rfl (by decide) (by decide)⟩

/-- C3 as stated fails: with two listed gateways named `gw`, the first one in list order
is `gatewayFirst`, yet the resulting state has the id, crn and location of
`gatewaySecond`. -/
theorem gatewayRead_first_match_overwritten :
    [gatewayFirst, gatewaySecond].find?
        (fun x => x.named (sampleData.GetString sampleConsts.tgName)) = some gatewayFirst ∧
    (dataSourceIBMTransitGatewayRead sampleConsts sampleData
        (.ok (listingClient [gatewayFirst, gatewaySecond] []))).d.id = "id-second" ∧
    some (dataSourceIBMTransitGatewayRead sampleConsts sampleData
        (.ok (listingClient [gatewayFirst, gatewaySecond] []))).d.id ≠ gatewayFirst.ID ∧
    mapGet (dataSourceIBMTransitGatewayRead sampleConsts sampleData
        (.ok (listingClient [gatewayFirst, gatewaySecond] []))).d.attrs sampleConsts.tgCrn
      = some (.scalar (.str "crn-second")) ∧
    mapGet (dataSourceIBMTransitGatewayRead sampleConsts sampleData
        (.ok (listingClient [gatewayFirst, gatewaySecond] []))).d.attrs
        sampleConsts.tgLocation
      = some (.scalar (.str "eu-de")) := by
  decide

/-! ## The connection action resource -/

/-- C6, as the code has it: after Delete the id is empty for every prior state; after
Create the resource data is the prior one with the id emptied when Create returns nil,
and the prior one unchanged, id included, when Create returns an error. -/
theorem connectionAction_id_after (d : ResourceData) (session : Except String Client) :
    (resourceIBMTransitGatewayConnectionActionsDelete d session).d.id = "" ∧
    (resourceIBMTransitGatewayConnectionActionsDelete d session).result = .nil ∧
    (resourceIBMTransitGatewayConnectionActionsCreate d session).d
      = (match (resourceIBMTransitGatewayConnectionActionsCreate d session).result with
         | .nil => d.SetId ""
         | _ => d) ∧
    (d.SetId "").id = "" := by
  refine ⟨rfl, rfl, ?_, rfl⟩
  cases session with
  | error err => rfl
  | ok client =>
    cases h : client.CreateTransitGatewayConnectionActions (d.GetString tgXacGatewayId)
        (d.GetString tgXacConnectionId) (d.GetString tgConnectionAction) <;>
      simp [resourceIBMTransitGatewayConnectionActionsCreate, h]

/-- C6 as stated fails: Create on a resource data whose id is not empty, with an SDK call
that fails, returns with the id as it was. -/
theorem create_failure_keeps_id :
    (resourceIBMTransitGatewayConnectionActionsCreate actionData (.ok failingClient)).d.id
      = "gw-1/conn-1" ∧
    (resourceIBMTransitGatewayConnectionActionsCreate actionData (.ok failingClient)).d.id
      ≠ "" := by
  decide

/-- C9: with a client at hand, Create issues exactly one SDK call,
`CreateTransitGatewayConnectionActions` with the configured `gateway`, `connection_id` and
`action`; it returns an error exactly when that call fails, and nil exactly when it
succeeds. -/
theorem create_single_call (d : ResourceData) (client : Client) :
    (resourceIBMTransitGatewayConnectionActionsCreate d (.ok client)).calls
      = [.CreateTransitGatewayConnectionActions (d.GetString tgXacGatewayId)
          (d.GetString tgXacConnectionId) (d.GetString tgConnectionAction)] ∧
    ((∃ msg, (resourceIBMTransitGatewayConnectionActionsCreate d (.ok client)).result
        = .error msg) ↔
      ∃ e, client.CreateTransitGatewayConnectionActions (d.GetString tgXacGatewayId)
        (d.GetString tgXacConnectionId) (d.GetString tgConnectionAction) = .error e) ∧
    ((resourceIBMTransitGatewayConnectionActionsCreate d (.ok client)).result = .nil ↔
      ∃ response, client.CreateTransitGatewayConnectionActions (d.GetString tgXacGatewayId)
        (d.GetString tgXacConnectionId) (d.GetString tgConnectionAction) = .ok response) := by
  cases h : client.CreateTransitGatewayConnectionActions (d.GetString tgXacGatewayId)
      (d.GetString tgXacConnectionId) (d.GetString tgConnectionAction) <;>
    simp [resourceIBMTransitGatewayConnectionActionsCreate, h]

/-- C7: when the id splits into a gateway id and a connection id and the fetch of that
connection fails with a response of status 404, the read returns nil, the id is emptied
(the attributes stay), and the connection fetch is its only SDK call. -/
theorem actionsRead_not_found (K : Consts) (idParts : String → Except String (List String))
    (d : ResourceData) (client : Client) (parts : List String) (gatewayId connID : String)
    (e : SdkError) (response : DetailedResponse)
    (hparts : idParts d.Id = .ok parts) (h0 : parts[0]? = some gatewayId)
    (h1 : parts[1]? = some connID)
    (hget : client.GetTransitGatewayConnection gatewayId connID = .error e)
    (hresp : e.response = some response) (h404 : response.StatusCode = 404) :
    resourceIBMTransitGatewayConnectionActionsRead K idParts d (.ok client)
      = ⟨d.SetId "", [.GetTransitGatewayConnection gatewayId connID], .nil⟩ := by
  simp [resourceIBMTransitGatewayConnectionActionsRead, hparts, h0, h1, hget, hresp, h404]

/-- The statement of `actionsRead_not_found` at a client that answers 404. -/
theorem actionsRead_not_found_witness :
    fixedIdParts actionData.Id = .ok ["gw-1", "conn-1"] ∧
    ["gw-1", "conn-1"][0]? = some "gw-1" ∧ ["gw-1", "conn-1"][1]? = some "conn-1" ∧
    notFoundClient.GetTransitGatewayConnection "gw-1" "conn-1" = .error notFound ∧
    notFound.response = some ⟨404, "404 Not Found"⟩ ∧
    (⟨404, "404 Not Found"⟩ : DetailedResponse).StatusCode = 404 ∧
    resourceIBMTransitGatewayConnectionActionsRead sampleConsts fixedIdParts actionData
        (.ok notFoundClient)
      = ⟨actionData.SetId "", [.GetTransitGatewayConnection "gw-1" "conn-1"], .nil⟩ :=
  ⟨rfl, rfl, rfl, rfl, rfl, rfl,
    actionsRead_not_found sampleConsts fixedIdParts actionData notFoundClient
      ["gw-1", "conn-1"] "gw-1" "conn-1" notFound ⟨404, "404 Not Found"⟩ rfl rfl rfl rfl rfl
      rfl⟩

/-! ## Failed SDK calls -/

theorem create_stopsAtFailure (d : ResourceData) (client : Client) :
    (resourceIBMTransitGatewayConnectionActionsCreate d (.ok client)).stopsAtFailure
      client d := by
  intro c hc hfail
  cases h : client.CreateTransitGatewayConnectionActions (d.GetString tgXacGatewayId)
      (d.GetString tgXacConnectionId) (d.GetString tgConnectionAction) with
  | error e =>
    simp only [resourceIBMTransitGatewayConnectionActionsCreate, h, List.mem_singleton] at hc ⊢
    subst hc
    simp
  | ok response =>
    simp only [resourceIBMTransitGatewayConnectionActionsCreate, h, List.mem_singleton] at hc
    subst hc
    simp [Client.fails, h] at hfail

theorem connectionsRead_stopsAtFailure (K : Consts) (d : ResourceData) (client : Client) :
    (dataSourceIBMTransitGatewayConnectionsRead K d (.ok client)).stopsAtFailure
      client d := by
  intro c hc hfail
  rw [connectionsRead_calls, List.mem_singleton] at hc
  subst hc
  cases h : client.ListTransitGatewayConnections d.Id with
  | error e => simp [dataSourceIBMTransitGatewayConnectionsRead, h]
  | ok listTGConnections => simp [Client.fails, h] at hfail

theorem gatewayRead_stopsAtFailure (K : Consts) (d : ResourceData) (client : Client) :
    (dataSourceIBMTransitGatewayRead K d (.ok client)).stopsAtFailure client d := by
  intro c hc hfail
  cases h : client.ListTransitGateways with
  | error e =>
    simp only [dataSourceIBMTransitGatewayRead, h, List.mem_singleton] at hc ⊢
    subst hc
    simp
  | ok listTransitGateways =>
    have hLG : client.fails .ListTransitGateways = false := by simp [Client.fails, h]
    cases hp : (scanGateways K (d.GetString K.tgName) listTransitGateways.TransitGateways d
        false).panicked with
    | some p =>
      simp only [dataSourceIBMTransitGatewayRead, h, hp, List.mem_singleton] at hc
      subst hc
      rw [hLG] at hfail; cases hfail
    | none =>
      cases hf : (scanGateways K (d.GetString K.tgName) listTransitGateways.TransitGateways d
          false).foundGateway with
      | false =>
        simp only [dataSourceIBMTransitGatewayRead, h, hp, hf, Bool.not_false, if_true,
          List.mem_singleton] at hc
        subst hc
        rw [hLG] at hfail; cases hfail
      | true =>
        rw [gatewayRead_found K d client listTransitGateways.TransitGateways h hp hf] at hc ⊢
        simp only [connectionsRead_calls, List.singleton_append, List.mem_cons,
          List.mem_singleton, List.not_mem_nil, or_false] at hc ⊢
        rcases hc with hc | hc
        · subst hc
          rw [hLG] at hfail; cases hfail
        · subst hc
          cases hl : client.ListTransitGatewayConnections
              (scanGateways K (d.GetString K.tgName) listTransitGateways.TransitGateways d
                false).d.Id with
          | error e => simp [dataSourceIBMTransitGatewayConnectionsRead, hl]
          | ok listTGConnections => simp [Client.fails, hl] at hfail

theorem actionsRead_stopsAtFailure (K : Consts)
    (idParts : String → Except String (List String)) (d : ResourceData) (client : Client) :
    (resourceIBMTransitGatewayConnectionActionsRead K idParts d (.ok client)).stopsAtFailure
      client d := by
  intro c hc hfail
  cases hparts : idParts d.Id with
  | error err => simp [resourceIBMTransitGatewayConnectionActionsRead, hparts] at hc
  | ok parts =>
    cases h0 : parts[0]? with
    | none => simp [resourceIBMTransitGatewayConnectionActionsRead, hparts, h0] at hc
    | some gatewayId =>
      cases h1 : parts[1]? with
      | none => simp [resourceIBMTransitGatewayConnectionActionsRead, hparts, h0, h1] at hc
      | some connID =>
        cases hget : client.GetTransitGatewayConnection gatewayId connID with
        | error e =>
          cases hresp : e.response with
          | none =>
            simp only [resourceIBMTransitGatewayConnectionActionsRead, hparts, h0, h1, hget,
              hresp, List.mem_singleton] at hc ⊢
            subst hc
            simp
          | some response =>
            by_cases h404 : response.StatusCode = 404
            · simp only [resourceIBMTransitGatewayConnectionActionsRead, hparts, h0, h1, hget,
                hresp, h404, if_true, List.mem_singleton] at hc
              subst hc
              simp [Client.fails, hget, hresp, h404] at hfail
            · simp only [resourceIBMTransitGatewayConnectionActionsRead, hparts, h0, h1, hget,
                hresp, if_neg h404, List.mem_singleton] at hc ⊢
              subst hc
              simp
        | ok inst =>
          have hC : client.fails (.GetTransitGatewayConnection gatewayId connID) = false := by
            simp [Client.fails, hget]
          cases hID : inst.ID with
          | none =>
            simp only [resourceIBMTransitGatewayConnectionActionsRead, hparts, h0, h1, hget,
              hID, List.mem_singleton] at hc
            subst hc
            rw [hC] at hfail; cases hfail
          | some instID =>
            cases hgw : client.GetTransitGateway gatewayId with
            | error e =>
              simp only [resourceIBMTransitGatewayConnectionActionsRead, hparts, h0, h1, hget,
                hID, hgw, List.singleton_append, List.mem_cons, List.mem_singleton,
                List.not_mem_nil, or_false] at hc ⊢
              rcases hc with hc | hc
              · subst hc
                rw [hC] at hfail; cases hfail
              · subst hc
                simp
            | ok tgw =>
              have hG : client.fails (.GetTransitGateway gatewayId) = false := by
                simp [Client.fails, hgw]
              have hcalls : (resourceIBMTransitGatewayConnectionActionsRead K idParts d
                  (.ok client)).calls = [.GetTransitGatewayConnection gatewayId connID,
                    .GetTransitGateway gatewayId] := by
                cases hcrn : tgw.Crn <;>
                  simp [resourceIBMTransitGatewayConnectionActionsRead, hparts, h0, h1, hget,
                    hID, hgw, hcrn]
              rw [hcalls] at hc
              simp only [List.mem_cons, List.mem_singleton, List.not_mem_nil, or_false] at hc
              rcases hc with hc | hc
              · subst hc
                rw [hC] at hfail; cases hfail
              · subst hc
                rw [hG] at hfail; cases hfail

/-- C8, as the code has it: in the connection action create and read, the gateway data
read and the connections read, an SDK call that fails (the 404 on the connection fetch
left aside) is the last call of the run and the run returns an error; when the failed
call is the only call the run issued, the resource data on return is the one the run
started with. -/
theorem sdk_failure_stops (K : Consts) (idParts : String → Except String (List String))
    (d : ResourceData) (client : Client) :
    (resourceIBMTransitGatewayConnectionActionsCreate d (.ok client)).stopsAtFailure
      client d ∧
    (resourceIBMTransitGatewayConnectionActionsRead K idParts d (.ok client)).stopsAtFailure
      client d ∧
    (dataSourceIBMTransitGatewayRead K d (.ok client)).stopsAtFailure client d ∧
    (dataSourceIBMTransitGatewayConnectionsRead K d (.ok client)).stopsAtFailure client d :=
  ⟨create_stopsAtFailure d client, actionsRead_stopsAtFailure K idParts d client,
    gatewayRead_stopsAtFailure K d client, connectionsRead_stopsAtFailure K d client⟩

/-- C8 as stated fails: when the connections listing fails inside the gateway data read,
and when the gateway fetch fails inside the action read, the run returns an error with the
writes made before the failed call still in the resource data. -/
theorem failure_keeps_earlier_writes :
    (connectionsFailingClient [gatewayFirst]).fails
        (.ListTransitGatewayConnections "id-first") = true ∧
    (dataSourceIBMTransitGatewayRead sampleConsts sampleData
        (.ok (connectionsFailingClient [gatewayFirst]))).calls
      = [.ListTransitGateways, .ListTransitGatewayConnections "id-first"] ∧
    (dataSourceIBMTransitGatewayRead sampleConsts sampleData
        (.ok (connectionsFailingClient [gatewayFirst]))).d.id = "id-first" ∧
    (dataSourceIBMTransitGatewayRead sampleConsts sampleData
        (.ok (connectionsFailingClient [gatewayFirst]))).d ≠ sampleData ∧
    gatewayFailingClient.fails (.GetTransitGateway "gw-1") = true ∧
    (resourceIBMTransitGatewayConnectionActionsRead sampleConsts fixedIdParts actionData
        (.ok gatewayFailingClient)).calls
      = [.GetTransitGatewayConnection "gw-1" "conn-1", .GetTransitGateway "gw-1"] ∧
    (resourceIBMTransitGatewayConnectionActionsRead sampleConsts fixedIdParts actionData
        (.ok gatewayFailingClient)).d ≠ actionData := by
  decide

/-- The statement of `sdk_failure_stops` at a failing gateway listing. -/
theorem sdk_failure_stops_witness :
    failingClient.fails .ListTransitGateways = true ∧
    SdkCall.ListTransitGateways ∈
      (dataSourceIBMTransitGatewayRead sampleConsts sampleData (.ok failingClient)).calls ∧
    ((dataSourceIBMTransitGatewayRead sampleConsts sampleData (.ok failingClient)).calls.getLast?
        = some .ListTransitGateways ∧
      (∃ msg, (dataSourceIBMTransitGatewayRead sampleConsts sampleData
        (.ok failingClient)).result = .error msg) ∧
      ((dataSourceIBMTransitGatewayRead sampleConsts sampleData (.ok failingClient)).calls
          = [.ListTransitGateways] →
        (dataSourceIBMTransitGatewayRead sampleConsts sampleData (.ok failingClient)).d
          = sampleData)) :=
  ⟨by decide, by decide,
    (sdk_failure_stops sampleConsts fixedIdParts sampleData failingClient).2.2.1
      .ListTransitGateways (by decide) (by decide)⟩

/-! ## Every unguarded nil pointer is fatal -/

theorem flattenConnection_error_of_unguarded (K : Consts) (inst : Connection)
    (h : inst.unguardedPresent = false) : ∃ p, flattenConnection K inst = .error p := by
  cases hzone : inst.Zone with
  | some zone =>
    cases hn : zone.Name with
    | none => exact ⟨.nilDereference, by simp [flattenConnection, flattenZone, hzone, hn]⟩
    | some name =>
      simp only [Connection.unguardedPresent, hzone, hn, Option.isSome_some, Bool.true_and,
        List.all_eq_false] at h
      obtain ⟨prefixFilter, hmem, hc⟩ := h
      have herr : flattenPrefixFilter K prefixFilter = .error .nilDereference := by
        cases hcreated : prefixFilter.CreatedAt with
        | none => simp [flattenPrefixFilter, hcreated]
        | some t => simp [hcreated] at hc
      obtain ⟨q, hq⟩ := rangeAppend_error_of_mem _ _ prefixFilter hmem _ herr
      exact ⟨q, by simp [flattenConnection, flattenZone, hzone, hn, hq]⟩
  | none =>
    simp only [Connection.unguardedPresent, hzone, Bool.true_and, List.all_eq_false] at h
    obtain ⟨prefixFilter, hmem, hc⟩ := h
    have herr : flattenPrefixFilter K prefixFilter = .error .nilDereference := by
      cases hcreated : prefixFilter.CreatedAt with
      | none => simp [flattenPrefixFilter, hcreated]
      | some t => simp [hcreated] at hc
    obtain ⟨q, hq⟩ := rangeAppend_error_of_mem _ _ prefixFilter hmem _ herr
    exact ⟨q, by simp [flattenConnection, flattenZone, hzone, hq]⟩

/-- Whenever the listing holds a connection with a nameless zone or with a prefix filter
without creation time, the connections reader panics and writes nothing. -/
theorem connectionsRead_panics_of_unguarded (K : Consts) (d : ResourceData)
    (client : Client) (cs : List Connection) (c : Connection)
    (hlist : client.ListTransitGatewayConnections d.Id = .ok ⟨cs⟩) (hc : c ∈ cs)
    (h : c.unguardedPresent = false) :
    ∃ p, dataSourceIBMTransitGatewayConnectionsRead K d (.ok client)
      = ⟨d, [.ListTransitGatewayConnections d.Id], .panic p⟩ := by
  obtain ⟨p, hp⟩ := flattenConnection_error_of_unguarded K c h
  obtain ⟨q, hq⟩ := rangeAppend_error_of_mem (flattenConnection K) cs c hc p hp
  exact ⟨q, by simp [dataSourceIBMTransitGatewayConnectionsRead, hlist, flattenConnections, hq]⟩

end Tgw
